import Mathlib

/-!
# Performance-test scripts of the booking service (k6)

A shallow embedding of the three k6 scripts under `k6-tests/`
(`booking-load-test.js`, `smoke-test.js`, `spike-test.js`), followed by the
page scripts under `static/js` (`staff.js`, `dashboard.js`, `citizen.js`).

Conventions of the embedding:

* JavaScript numbers are exact rationals (`ℚ`); the non-finite results of
  arithmetic are the extra constructors of `JsNum`.
* A function that can throw returns `Except JsError _`; `try { … } catch { … }`
  is `tryCatch`.
* `Math.random()`, the HTTP response of the target service and the summary data
  handed over by k6 are inputs of the functions that consume them; the load
  test takes its draw `random = Math.random() * 100` as the input.
* `errorRate.add(v)` appends `v` to the list of observations of the `errors`
  Rate (oldest first).
-/

set_option autoImplicit false

namespace K6

/-! ## JavaScript values -/

/-- Exceptions the scripts can raise. -/
inductive JsError where
  /-- `JSON.parse` on text that is not JSON. -/
  | syntaxError
  /-- Property access on `undefined`/`null`, or a call of something that is not a function. -/
  | typeError
  deriving DecidableEq, Repr

/-- Result of JavaScript arithmetic on numbers. -/
inductive JsNum where
  | nan
  | posInf
  | negInf
  | fin (q : ℚ)
  deriving DecidableEq

/-- Values produced by `JSON.parse`, together with `undefined` (the value of an absent
property).  An object is its list of own properties; a key is looked up from the front. -/
inductive JsValue where
  | undefined
  | null
  | bool (b : Bool)
  | num (q : ℚ)
  | str (s : String)
  | arr (items : List JsValue)
  | obj (fields : List (String × JsValue))

/-- JavaScript truthiness (`ToBoolean`). -/
def JsValue.truthy : JsValue → Bool
  | .undefined => false
  | .null => false
  | .bool b => b
  | .num q => decide (q ≠ 0)
  | .str s => decide (s ≠ "")
  | .arr _ => true
  | .obj _ => true

/-- The statement `try { body } catch { handler }`. -/
def tryCatch {α : Type} (body : Except JsError α) (handler : Except JsError α) :
    Except JsError α :=
  match body with
  | .ok a => .ok a
  | .error _ => handler

/-- The function `check(response, { … })` of k6: every named predicate is evaluated and the
result is `true` exactly when all of them passed; an exception raised by a predicate
propagates. -/
def check : List (Except JsError Bool) → Except JsError Bool
  | [] => .ok true
  | p :: rest => do
    let passed ← p
    let others ← check rest
    pure (passed && others)

/-- An HTTP response as the scripts read it: `r.status`, the outcome of `JSON.parse(r.body)`
(`none` when the body is not JSON and the parse throws a `SyntaxError`) and
`r.timings.duration` in milliseconds. -/
structure Response where
  status : Int
  parsedBody : Option JsValue
  duration : ℚ

/-- The call `JSON.parse(r.body)`. -/
def jsonParseBody (r : Response) : Except JsError JsValue :=
  match r.parsedBody with
  | some v => .ok v
  | none => .error .syntaxError

/-- The property access `v.accessToken`. -/
def getAccessToken : JsValue → Except JsError JsValue
  | .undefined => .error .typeError
  | .null => .error .typeError
  | .obj fields => .ok ((fields.lookup "accessToken").getD .undefined)
  | _ => .ok .undefined

/-- The property access `v.length` (for a string, the number of UTF-16 code units). -/
def getLength : JsValue → Except JsError JsValue
  | .undefined => .error .typeError
  | .null => .error .typeError
  | .str s => .ok (.num ((s.toList.map (fun c => if c.val < 65536 then 1 else 2)).sum : ℕ))
  | .arr items => .ok (.num (items.length : ℕ))
  | .obj fields => .ok ((fields.lookup "length").getD .undefined)
  | _ => .ok .undefined

/-- The test `n > 0` on a number. -/
def JsNum.gtZero : JsNum → Bool
  | .nan => false
  | .posInf => true
  | .negInf => false
  | .fin q => decide (0 < q)

/-- The comparison `v > 0`.  The operand is converted with `ToNumber`; for strings, arrays
and objects that conversion belongs to the JavaScript engine and is the argument `toNumber`
(it may throw). -/
def gtZero (toNumber : JsValue → Except JsError JsNum) : JsValue → Except JsError Bool
  | .undefined => .ok false
  | .null => .ok false
  | .bool b => .ok b
  | .num q => .ok (decide (0 < q))
  | v => (toNumber v).map JsNum.gtZero

/-- The call `Array.isArray(v)`. -/
def isArray : JsValue → Bool
  | .arr _ => true
  | _ => false

/-- The test `v !== undefined`. -/
def isDefined : JsValue → Bool
  | .undefined => false
  | _ => true

/-! ## Weighted scenario selection (`booking-load-test.js`, default function) -/

/-- One entry `{ weight, fn }` of a scenario table. -/
structure Weighted (α : Type) where
  weight : ℚ
  fn : α

/-- The selection loop
`for (const scenario of scenarios) { cumulative += scenario.weight;
   if (random < cumulative) { scenario.fn(); break; } }`
started with the given value of `cumulative`; the result is the function that is called,
or `none` when the loop ends without calling any. -/
def selectLoop {α : Type} (random : ℚ) : ℚ → List (Weighted α) → Option α
  | _, [] => none
  | cumulative, scenario :: rest =>
    let cumulative := cumulative + scenario.weight
    if random < cumulative then some scenario.fn else selectLoop random cumulative rest

/-- Sum of the weights of the first `i` entries of a scenario table. -/
def cumWeight {α : Type} (table : List (Weighted α)) (i : ℕ) : ℚ :=
  ((table.take i).map Weighted.weight).sum

namespace LoadTest

/-- The four scenario functions of the load test. -/
inductive ScenarioFn where
  | testCreateBooking
  | testGetBookings
  | testGetBookingByToken
  | testStaffOperations
  deriving DecidableEq, Repr

/-- The table `scenarios` of the default function. -/
def scenarios : List (Weighted ScenarioFn) :=
  [ ⟨40, .testCreateBooking⟩,
    ⟨30, .testGetBookings⟩,
    ⟨20, .testGetBookingByToken⟩,
    ⟨10, .testStaffOperations⟩ ]

/-- The factor of `const random = Math.random() * 100`: with `Math.random()` in `[0, 1)`
the draw `random`, a binary64 number, lies in `[0, drawBound)`. -/
def drawBound : ℚ := 100

/-- Scenario dispatch of the default function: the selection loop over `scenarios` from
`cumulative = 0`.  The argument is the draw, that is the value of the constant `random`
(the binary64 product `Math.random() * 100`); the weights and their running sums are
integers, so every comparison of the loop is exact. -/
def defaultFn (random : ℚ) : Option ScenarioFn :=
  let cumulative := 0
  selectLoop random cumulative scenarios

/-- Per-VU state the load test reads and writes: the observations of the `errors` Rate and
the variable `__ENV.LAST_TOKEN` (`undefined` while unset). -/
structure VU where
  errors : List Bool
  lastToken : JsValue

/-- The check `create booking: has access token`:
`try { const body = JSON.parse(r.body);
       return body.accessToken && body.accessToken.length > 0; } catch { return false; }`,
as the truthiness of the returned value. -/
def hasAccessTokenCheck (toNumber : JsValue → Except JsError JsNum) (r : Response) :
    Except JsError Bool :=
  tryCatch
    (do
      let body ← jsonParseBody r
      let token ← getAccessToken body
      if token.truthy then do
        let len ← getLength token
        gtZero toNumber len
      else
        pure false)
    (.ok false)

/-- The function `testCreateBooking`, given the response of the `POST /bookings` request. -/
def testCreateBooking (toNumber : JsValue → Except JsError JsNum) (response : Response)
    (vu : VU) : Except JsError VU := do
  let success ← check
    [ .ok (decide (response.status = 201)),
      hasAccessTokenCheck toNumber response,
      .ok (decide (response.duration < 500)) ]
  let vu := { vu with errors := vu.errors ++ [!success] }
  if response.status = 201 then
    tryCatch
      (do
        let body ← jsonParseBody response
        let token ← getAccessToken body
        if token.truthy then pure { vu with lastToken := token } else pure vu)
      (.ok vu)
  else
    pure vu

/-- The function `testGetBookings`, given the response of `GET /staff/bookings`. -/
def testGetBookings (response : Response) (vu : VU) : Except JsError VU := do
  let success ← check
    [ .ok (decide (response.status = 200)),
      tryCatch (do let body ← jsonParseBody response; pure (isArray body)) (.ok false),
      .ok (decide (response.duration < 300)) ]
  pure { vu with errors := vu.errors ++ [!success] }

/-- The token `__ENV.LAST_TOKEN || 'PORTO-2025-TESTTOKEN'` that `testGetBookingByToken`
looks up. -/
def lookupToken (vu : VU) : JsValue :=
  if vu.lastToken.truthy then vu.lastToken else .str "PORTO-2025-TESTTOKEN"

/-- The function `testGetBookingByToken`, given the response of
`GET /bookings/token/<lookupToken>`. -/
def testGetBookingByToken (response : Response) (vu : VU) : Except JsError VU := do
  let success ← check
    [ .ok (decide (response.status = 200) || decide (response.status = 404)),
      .ok (decide (response.duration < 200)) ]
  pure { vu with errors := vu.errors ++ [!success && decide (response.status ≠ 404)] }

/-- The function `testStaffOperations`: it returns at once when `__ENV.LAST_TOKEN` is falsy;
otherwise `response` is the response of the `PUT` request of the chosen operation. -/
def testStaffOperations (response : Response) (vu : VU) : Except JsError VU :=
  if !vu.lastToken.truthy then
    pure vu
  else do
    let success ← check
      [ .ok (decide (response.status = 200) || decide (response.status = 400)),
        .ok (decide (response.duration < 400)) ]
    pure { vu with errors := vu.errors ++ [!success && decide (response.status ≠ 400)] }

end LoadTest

/-! ## Scenario functions of `smoke-test.js` -/

namespace SmokeTest

/-- Custom metrics of the smoke test: the samples of the two Trends, the observations of the
`errors` Rate and the value of the `successful_bookings` Counter. -/
structure VU where
  bookingCreationTime : List ℚ
  bookingRetrievalTime : List ℚ
  errors : List Bool
  successfulBookings : ℕ

/-- The function `createBooking`, given the measured `Date.now() - start` and the response
of the `POST /bookings` request.  The first component is the state of the metrics when the
function returns or throws, the second is the returned value or the exception. -/
def createBooking (elapsed : ℚ) (response : Response) (vu : VU) :
    VU × Except JsError JsValue :=
  let vu := { vu with bookingCreationTime := vu.bookingCreationTime ++ [elapsed] }
  match check
    [ .ok (decide (response.status = 201) || decide (response.status = 409)),
      if response.status = 201 then
        tryCatch
          (do
            let body ← jsonParseBody response
            let token ← getAccessToken body
            pure (isDefined token))
          (.ok false)
      else
        .ok true ] with
  | .error e => (vu, .error e)
  | .ok success =>
    let vu := { vu with errors := vu.errors ++ [!success && decide (response.status ≠ 409)] }
    if response.status = 201 then
      ({ vu with successfulBookings := vu.successfulBookings + 1 }, jsonParseBody response)
    else
      (vu, .ok .null)

/-- The function `assignBooking`, given the response of the `PUT …/assign` request. -/
def assignBooking (response : Response) (vu : VU) : Except JsError VU := do
  let success ← check
    [ .ok (decide (response.status = 200) || decide (response.status = 400)) ]
  pure { vu with errors := vu.errors ++ [!success && decide (response.status ≠ 400)] }

end SmokeTest

/-! ## Scenario functions of `spike-test.js` -/

namespace SpikeTest

/-- Custom metrics of the spike test: the observations of the `errors` Rate. -/
structure VU where
  errors : List Bool

/-- The function `createBooking`, given the response of the `POST /bookings` request. -/
def createBooking (response : Response) (vu : VU) : Except JsError VU := do
  let success ← check
    [ .ok (decide (response.status = 201) || decide (response.status = 409)),
      .ok (decide (response.duration < 1000)) ]
  pure { vu with errors := vu.errors ++ [!success && decide (response.status ≠ 409)] }

end SpikeTest

/-! ## End-of-test summaries

Text is kept as the list of its pieces; the formatting of a number (`toFixed(2)`, or its
interpolation into a template literal) is left symbolic. -/

/-- A piece of rendered text. -/
inductive Piece where
  /-- Literal text. -/
  | lit (s : String)
  /-- The string `x.toFixed(2)` of a number `x`. -/
  | fixed2 (x : JsNum)
  /-- The interpolation `${v}` of a value that is a number or `undefined` (`none`). -/
  | interp (v : Option ℚ)
  deriving DecidableEq

/-- The fields of the k6 summary object `data` that the summary functions read; each is a
number, or `undefined` (`none`) when k6 did not report it. -/
structure SummaryData where
  /-- The field `data.metrics.checks.passes`. -/
  checksPasses : Option ℚ
  /-- The field `data.metrics.checks.fails`. -/
  checksFails : Option ℚ
  /-- The field `data.metrics.http_req_duration.values.avg`. -/
  durationAvg : Option ℚ
  /-- The field `data.metrics.http_req_duration.values['p(95)']`. -/
  durationP95 : Option ℚ
  /-- The field `data.metrics.http_req_duration.values['p(99)']`. -/
  durationP99 : Option ℚ
  /-- The field `data.metrics.http_req_failed.values.rate`. -/
  failedRate : Option ℚ
  /-- The field `data.metrics.http_reqs.values.count`. -/
  reqsCount : Option ℚ
  /-- The field `data.metrics.vus.values.max`. -/
  vusMax : Option ℚ
  deriving DecidableEq

/-- The conversion `ToNumber` of a value that is a number or `undefined`. -/
def toNum : Option ℚ → JsNum
  | some q => .fin q
  | none => .nan

/-- The truthiness of a value that is a number or `undefined`. -/
def numTruthy : Option ℚ → Bool
  | some q => decide (q ≠ 0)
  | none => false

/-- The method call `v.toFixed(2)` on a value that is a number or `undefined`. -/
def callToFixed2 : Option ℚ → Except JsError Piece
  | some q => .ok (.fixed2 (.fin q))
  | none => .error .typeError

/-- Division of numbers; zero carries no sign. -/
def JsNum.div : JsNum → JsNum → JsNum
  | .fin a, .fin b =>
    if b = 0 then (if a = 0 then .nan else if 0 < a then .posInf else .negInf)
    else .fin (a / b)
  | .fin _, .posInf => .fin 0
  | .fin _, .negInf => .fin 0
  | .posInf, .fin b => if 0 ≤ b then .posInf else .negInf
  | .negInf, .fin b => if 0 ≤ b then .negInf else .posInf
  | _, _ => .nan

/-- Multiplication of numbers. -/
def JsNum.mul : JsNum → JsNum → JsNum
  | .fin a, .fin b => .fin (a * b)
  | .posInf, .fin b => if b = 0 then .nan else if 0 < b then .posInf else .negInf
  | .negInf, .fin b => if b = 0 then .nan else if 0 < b then .negInf else .posInf
  | .fin a, .posInf => if a = 0 then .nan else if 0 < a then .posInf else .negInf
  | .fin a, .negInf => if a = 0 then .nan else if 0 < a then .negInf else .posInf
  | .posInf, .posInf => .posInf
  | .negInf, .negInf => .posInf
  | .posInf, .negInf => .negInf
  | .negInf, .posInf => .negInf
  | _, _ => .nan

/-- Content of a file returned by `handleSummary`. -/
inductive FileContent where
  /-- Rendered text. -/
  | text (pieces : List Piece)
  /-- The string `JSON.stringify(data)`. -/
  | json (data : SummaryData)
  deriving DecidableEq

namespace LoadTest

/-- The argument `options` of `textSummary`. -/
structure SummaryOptions where
  indent : String
  enableColors : Bool

/-- The value of `data.metrics.checks.passes / data.metrics.checks.fails * 100`. -/
def checksNumber (data : SummaryData) : JsNum :=
  ((toNum data.checksPasses).div (toNum data.checksFails)).mul (.fin 100)

/-- The function `textSummary` (`options.indent || ''` is `options.indent`, the empty string
being the only falsy string). -/
def textSummary (data : SummaryData) (options : SummaryOptions) :
    Except JsError (List Piece) := do
  let indent := options.indent
  let summary := [Piece.lit "\n"]
  let summary := summary ++
    [.lit indent, .lit "✓ checks.........................: ",
     .fixed2 (checksNumber data), .lit "% pass\n"]
  let avg ← callToFixed2 data.durationAvg
  let p95 ← callToFixed2 data.durationP95
  let summary := summary ++
    [.lit indent, .lit "✓ http_req_duration..............: avg=", avg, .lit "ms p(95)=",
     p95, .lit "ms\n"]
  let summary := summary ++
    [.lit indent, .lit "✓ http_req_failed................: ",
     .fixed2 ((toNum data.failedRate).mul (.fin 100)), .lit "% fail\n"]
  let summary := summary ++
    [.lit indent, .lit "✓ http_reqs......................: ", .interp data.reqsCount,
     .lit " total\n"]
  let summary := summary ++
    [.lit indent, .lit "✓ vus............................: ", .interp data.vusMax,
     .lit " max\n"]
  pure summary

/-- The function `handleSummary` of the load test. -/
def handleSummary (data : SummaryData) : Except JsError (List (String × FileContent)) := do
  let stdout ← textSummary data ⟨" ", true⟩
  pure [("stdout", .text stdout), ("k6-test-results.json", .json data)]

end LoadTest

namespace SpikeTest

/-- The operand of the last `console.log` that depends on `p99`:
`p99 ? p99.toFixed(2) + 'ms' : 'N/A'`. -/
def p99Text (p99 : Option ℚ) : Except JsError (List Piece) :=
  if numTruthy p99 then do
    let fixed ← callToFixed2 p99
    pure [fixed, .lit "ms"]
  else
    pure [.lit "N/A"]

/-- The function `handleSummary` of the spike test.  The first component is the list of the
lines written with `console.log` until the function returns or throws, the second is the
returned value or the exception. -/
def handleSummary (data : SummaryData) :
    List (List Piece) × Except JsError (List (String × FileContent)) :=
  let console := [[Piece.lit "\n=== SPIKE TEST RESULTS ===\n"]]
  let console := console ++ [[.lit "Total requests: ", .interp data.reqsCount]]
  let console := console ++
    [[.lit "Failed requests: ", .fixed2 ((toNum data.failedRate).mul (.fin 100)), .lit "%"]]
  match callToFixed2 data.durationAvg with
  | .error e => (console, .error e)
  | .ok avg =>
    let console := console ++ [[.lit "Average response time: ", avg, .lit "ms"]]
    match callToFixed2 data.durationP95 with
    | .error e => (console, .error e)
    | .ok p95 =>
      let console := console ++ [[.lit "95th percentile: ", p95, .lit "ms"]]
      let p99 := data.durationP99
      match p99Text p99 with
      | .error e => (console, .error e)
      | .ok text =>
        let console := console ++ [.lit "99th percentile: " :: text]
        let console := console ++ [[.lit "Max VUs: ", .interp data.vusMax]]
        (console, .ok [("k6-spike-test-results.json", .json data)])

end SpikeTest

/-! ## Ramp profiles -/

/-- One entry `{ duration, target }` of `options.stages`, the duration in seconds. -/
structure Stage where
  duration : ℚ
  target : ℕ

/-- The ramp profile `options.stages` of the load test. -/
def LoadTest.stages : List Stage :=
  [⟨30, 20⟩, ⟨60, 20⟩, ⟨30, 50⟩, ⟨60, 50⟩, ⟨30, 0⟩]

/-- The ramp profile `options.stages` of the spike test. -/
def SpikeTest.stages : List Stage :=
  [⟨10, 10⟩, ⟨10, 100⟩, ⟨30, 100⟩, ⟨10, 10⟩, ⟨10, 0⟩]

namespace Ramp

/-- Linear interpolation `lerp(a, b, f) = a + (b - a) * f`. -/
def lerp (a b f : ℚ) : ℚ := a + (b - a) * f

/-- Rounding to the nearest integer (halves upwards). -/
def roundNearest (x : ℚ) : ℤ := ⌊x + 1 / 2⌋

/-- Modelled from the spec: the interpolation rule of the Ramp Scheduler (§4.1), which the
scripts leave to the k6 runtime.  With `t` the time elapsed since the start of the first
remaining stage and `prev` the target of the stage before it: when `t` falls within the
first stage, of duration `d`, the count is `lerp(prev, target, t / d)` rounded to the nearest
integer; otherwise the rule moves on to the next stage.  Once every stage has elapsed the
count is the target of the last one. -/
def desiredFrom : ℤ → List Stage → ℚ → ℤ
  | prev, [], _ => prev
  | prev, stage :: rest, t =>
    if t < stage.duration then roundNearest (lerp prev stage.target (t / stage.duration))
    else desiredFrom stage.target rest (t - stage.duration)

/-- Modelled from the spec: the desired VU count of a ramp profile at elapsed time `t`
(§4.1), the target before stage 0 being 0. -/
def desiredVUs (profile : List Stage) (t : ℚ) : ℤ :=
  desiredFrom 0 profile t

/-- Elapsed time at which stage `i` of the profile ends. -/
def stageEnd (profile : List Stage) (i : ℕ) : ℚ :=
  ((profile.take (i + 1)).map Stage.duration).sum

end Ramp

/-! ## Further scenario code of the three scripts -/

/-- The comparison `a === b` of two values that come from different `JSON.parse` calls (or
are `undefined`): primitives are compared by type and value, and an array or object is never
identical to a value parsed elsewhere. -/
def strictEq : JsValue → JsValue → Bool
  | .undefined, .undefined => true
  | .null, .null => true
  | .bool a, .bool b => decide (a = b)
  | .num a, .num b => decide (a = b)
  | .str a, .str b => decide (a = b)
  | _, _ => false

/-- Whether a value is a primitive (`undefined`, `null`, a boolean, a number or a string)
rather than an array or an object. -/
def JsValue.isPrimitive : JsValue → Bool
  | .arr _ => false
  | .obj _ => false
  | _ => true

namespace LoadTest

/-- The call `scenario.fn()` of the default function, given the response of the request that
the called function sends. -/
def runScenario (toNumber : JsValue → Except JsError JsNum) (fn : ScenarioFn)
    (response : Response) (vu : VU) : Except JsError VU :=
  match fn with
  | .testCreateBooking => testCreateBooking toNumber response vu
  | .testGetBookings => testGetBookings response vu
  | .testGetBookingByToken => testGetBookingByToken response vu
  | .testStaffOperations => testStaffOperations response vu

/-- One iteration of the default function: the scenario selected by the draw `random` is
run.  The result is the selected scenario (`none` when the loop selects nothing) and the
state after the iteration; an exception would end the iteration with the state unchanged. -/
def iteration (toNumber : JsValue → Except JsError JsNum) (random : ℚ)
    (response : Response) (vu : VU) : Option ScenarioFn × VU :=
  match defaultFn random with
  | none => (none, vu)
  | some fn =>
    match runScenario toNumber fn response vu with
    | .ok vu' => (some fn, vu')
    | .error _ => (some fn, vu)

/-- The scenarios selected by a VU over successive iterations; each step gives the draw
`random` of the iteration and the response received in it. -/
def selectedScenarios (toNumber : JsValue → Except JsError JsNum) :
    List (ℚ × Response) → VU → List (Option ScenarioFn)
  | [], _ => []
  | step :: rest, vu =>
    let result := iteration toNumber step.1 step.2 vu
    result.1 :: selectedScenarios toNumber rest result.2

/-- Successive calls of `testCreateBooking`, one per response, oldest first. -/
def createBookings (toNumber : JsValue → Except JsError JsNum) :
    List Response → VU → Except JsError VU
  | [], vu => .ok vu
  | response :: rest, vu => do
    let vu ← testCreateBooking toNumber response vu
    createBookings toNumber rest vu

/-- The placeholder token of `testGetBookingByToken`. -/
def placeholderToken : JsValue := .str "PORTO-2025-TESTTOKEN"

/-- In the words of the specification: the access token issued by a creation response, that
is the `accessToken` of a response with status 201 and a parseable body whose `accessToken`
is non-empty (truthy); `none` for every other response. -/
def issuedToken (response : Response) : Option JsValue :=
  if response.status = 201 then
    match response.parsedBody with
    | none => none
    | some body =>
      match getAccessToken body with
      | .error _ => none
      | .ok token => if token.truthy then some token else none
  else
    none

/-- In the words of the specification: the token to look up after a sequence of creation
responses (oldest first), that is the token issued by the most recent response that issued
one, or the placeholder. -/
def expectedLookupToken (responses : List Response) : JsValue :=
  (responses.reverse.findSome? issuedToken).getD placeholderToken

end LoadTest

namespace SmokeTest

/-- The constant `daysAhead` of `createBooking`, from `__VU` and `__ITER`. -/
def daysAhead (vuId iterationId : ℕ) : ℕ :=
  30 + (vuId * 20) + (iterationId * 2)

/-- The index `vuId % municipalities.length` of the municipality of `createBooking`. -/
def municipalityIndex (vuId : ℕ) : ℕ :=
  vuId % 5

/-- The function `retrieveBooking(token)`, given the measured `Date.now() - start` and the
response of the `GET /bookings/token/<token>` request. -/
def retrieveBooking (elapsed : ℚ) (token : JsValue) (response : Response) (vu : VU) :
    Except JsError VU := do
  let vu := { vu with bookingRetrievalTime := vu.bookingRetrievalTime ++ [elapsed] }
  let success ← check
    [ .ok (decide (response.status = 200)),
      tryCatch
        (do
          let body ← jsonParseBody response
          let echoed ← getAccessToken body
          pure (strictEq echoed token))
        (.ok false) ]
  pure { vu with errors := vu.errors ++ [!success] }

/-- The default function of the smoke test, given the measured times and the responses of
the requests it may send.  The first component is the state of the metrics when the function
returns or throws. -/
def defaultFn (elapsedCreate : ℚ) (createResponse : Response) (elapsedRetrieve : ℚ)
    (retrieveResponse assignResponse : Response) (vu : VU) : VU × Except JsError Unit :=
  match createBooking elapsedCreate createResponse vu with
  | (vu, .error e) => (vu, .error e)
  | (vu, .ok booking) =>
    if booking.truthy then
      match getAccessToken booking with
      | .error e => (vu, .error e)
      | .ok token =>
        if token.truthy then
          match retrieveBooking elapsedRetrieve token retrieveResponse vu with
          | .error e => (vu, .error e)
          | .ok vu =>
            match assignBooking assignResponse vu with
            | .error e => (vu, .error e)
            | .ok vu => (vu, .ok ())
        else
          (vu, .ok ())
    else
      (vu, .ok ())

end SmokeTest

namespace SpikeTest

/-- The three operations of the spike test. -/
inductive ScenarioFn where
  | createBooking
  | listBookings
  | checkDashboard
  deriving DecidableEq, Repr

/-- Operation dispatch of the default function; the argument is `scenario = Math.random()`. -/
def defaultFn (scenario : ℚ) : ScenarioFn :=
  if scenario < 0.5 then
    .createBooking
  else if scenario < 0.8 then
    .listBookings
  else
    .checkDashboard

end SpikeTest

end K6

/-! # Web portals (`static/js`)

The state of the page that a function reads or writes is passed explicitly; markup is
represented by the data it shows. -/

namespace Portal

/-! ## Staff portal (`staff.js`) -/

namespace Staff

/-- The handler in the `onclick` attribute of a footer button. -/
inductive Action where
  | updateBookingStatus (newStatus : String)
  | closeDetailsModal
  deriving DecidableEq, Repr

/-- A button of the modal footer: its CSS class, its handler and its label. -/
structure Button where
  cssClass : String
  onclick : Action
  label : String
  deriving DecidableEq, Repr

/-- The function `updateModalFooter`, as the list of buttons written into the footer, for a
booking whose `currentStatus` is `status`. -/
def updateModalFooter (status : String) : List Button :=
  let buttons : List Button := []
  let buttons :=
    if status = "RECEIVED" then
      buttons ++ [⟨"btn btn-warning", .updateBookingStatus "ASSIGNED", "📋 Assign"⟩]
    else if status = "ASSIGNED" then
      buttons ++ [⟨"btn btn-primary", .updateBookingStatus "IN_PROGRESS", "🚚 Start Collection"⟩]
    else if status = "IN_PROGRESS" then
      buttons ++ [⟨"btn btn-success", .updateBookingStatus "COMPLETED", "✅ Mark Complete"⟩]
    else
      buttons
  let buttons :=
    if status ≠ "COMPLETED" ∧ status ≠ "CANCELLED" then
      buttons ++ [⟨"btn btn-danger", .updateBookingStatus "CANCELLED", "❌ Cancel"⟩]
    else
      buttons
  buttons ++ [⟨"btn btn-secondary", .closeDetailsModal, "Close"⟩]

/-- The URL requested by `loadBookings`: `API_BASE`,
`API_BASE/municipality/<encodeURIComponent(municipality)>` or `API_BASE/status/<status>`. -/
inductive Url where
  | base
  | byMunicipality (municipality : String)
  | byStatus (status : String)
  deriving DecidableEq, Repr

/-- The URL that `loadBookings` fetches, from the values of the two filter controls (the
empty string when nothing is selected). -/
def loadBookingsUrl (municipality status : String) : Url :=
  if municipality ≠ "" then
    .byMunicipality municipality
  else if status ≠ "" then
    .byStatus status
  else
    .base

end Staff

/-! ## Dashboard (`dashboard.js`) -/

namespace Dashboard

/-- The summary object: `byStatus` and `byMunicipality` as their entries in the order of
`Object.entries`, and `total`; `none` for an absent property. -/
structure Summary where
  byStatus : Option (List (String × ℚ))
  byMunicipality : Option (List (String × ℚ))
  total : Option ℚ

/-- Which of the optional elements of the page exist. -/
structure Page where
  totalBookingsEl : Bool
  statusTbody : Bool
  muniBreakdownTbody : Bool

/-- The order induced by the comparator `(a, b) => b[1] - a[1]`: `a` may stand before `b`. -/
def countDescending (a b : String × ℚ) : Prop := b.2 ≤ a.2

/-- The order of the comparator is decidable. -/
instance countDescendingDecidable : DecidableRel countDescending :=
  fun a b => inferInstanceAs (Decidable (b.2 ≤ a.2))

/-- The call `entries.sort((a, b) => b[1] - a[1])`: the stable sort of the entries by
descending count. -/
def sortEntries (entries : List (String × ℚ)) : List (String × ℚ) :=
  entries.insertionSort countDescending

/-- What `render` writes into the page. -/
structure Rendered where
  /-- Text of `#totalBookings`, when the element exists. -/
  totalBookings : Option ℚ
  /-- Labels and data of the status chart. -/
  statusLabels : List String
  statusValues : List ℚ
  /-- Rows of `#statusBreakdown`, when the table exists. -/
  statusRows : Option (List (String × ℚ))
  /-- Labels and data of the municipality chart. -/
  muniLabels : List String
  muniValues : List ℚ
  /-- Rows of `#topMunicipalities` (the list `top`). -/
  topRows : List (String × ℚ)
  /-- Rows of `#municipalityBreakdown` (the list `muniEntries`), when the table exists. -/
  breakdownRows : Option (List (String × ℚ))

/-- The function `render`. -/
def render (page : Page) (summary : Summary) : Rendered :=
  let byStatus := summary.byStatus.getD []
  let byMunicipality := summary.byMunicipality.getD []
  let total : ℚ :=
    match summary.total with
    | some t => if t ≠ 0 then t else 0
    | none => 0
  let statusLabels := byStatus.map Prod.fst
  let statusValues := byStatus.map Prod.snd
  let muniEntries := sortEntries byMunicipality
  let top := muniEntries.take 10
  { totalBookings := if page.totalBookingsEl then some total else none
    statusLabels := statusLabels
    statusValues := statusValues
    statusRows := if page.statusTbody then some byStatus else none
    muniLabels := top.map Prod.fst
    muniValues := top.map Prod.snd
    topRows := top
    breakdownRows := if page.muniBreakdownTbody then some muniEntries else none }

end Dashboard

/-! ## Citizen portal (`citizen.js`) -/

namespace Citizen

/-- The part of the page that the bulk-item functions read and write: the variable
`itemCounter`, the ids `n` of the elements `item-n` of class `bulk-item` in document order,
and the messages shown with `showAlert`. -/
structure Form where
  itemCounter : ℕ
  items : List ℕ
  alerts : List String
  deriving DecidableEq, Repr

/-- The page before the `DOMContentLoaded` handler runs. -/
def blank : Form := ⟨0, [], []⟩

/-- The function `addBulkItem`. -/
def addBulkItem (form : Form) : Form :=
  let itemCounter := form.itemCounter + 1
  { form with itemCounter := itemCounter, items := form.items ++ [itemCounter] }

/-- The function `removeBulkItem(id)`; `document.getElementById` yields the first element
with the id, and `null` (whose `remove` throws) when there is none. -/
def removeBulkItem (id : ℕ) (form : Form) : Except K6.JsError Form :=
  if form.items.length > 1 then
    if id ∈ form.items then
      .ok { form with items := form.items.erase id }
    else
      .error .typeError
  else
    .ok { form with alerts := form.alerts ++ ["You must have at least one item"] }

/-- The function `resetForm`, on the bulk items: the container is emptied, `itemCounter` is
set to 0 and one item is added. -/
def resetForm (form : Form) : Form :=
  addBulkItem { form with items := [], itemCounter := 0 }

/-- The page after the `DOMContentLoaded` handler: one item was added. -/
def loaded : Form := addBulkItem blank

/-- The states of the form that the user can reach from the loaded page by adding an item,
removing an item that is in the form, and resetting the form. -/
inductive Reachable : Form → Prop where
  | loaded : Reachable loaded
  | add (form : Form) : Reachable form → Reachable (addBulkItem form)
  | remove (form form' : Form) (id : ℕ) : Reachable form → id ∈ form.items →
      removeBulkItem id form = .ok form' → Reachable form'
  | reset (form : Form) : Reachable form → Reachable (resetForm form)

end Citizen

end Portal

namespace K6

/-! ## Theorems -/

/-- A `try` whose handler returns a value never throws. -/
theorem tryCatch_handler_ok {α : Type} (body : Except JsError α) (a : α) :
    ∃ b, tryCatch body (.ok a) = .ok b := by
  cases body with
  | ok v => exact ⟨v, rfl⟩
  | error e => exact ⟨a, rfl⟩

/-- The access-token check of the load test always yields a boolean. -/
theorem LoadTest.hasAccessTokenCheck_ok (toNumber : JsValue → Except JsError JsNum)
    (r : Response) : ∃ b, LoadTest.hasAccessTokenCheck toNumber r = .ok b :=
  tryCatch_handler_ok _ false

/-- Adding an entry in front of a table shifts the cumulative weights by its weight. -/
theorem cumWeight_cons {α : Type} (s : Weighted α) (table : List (Weighted α)) (i : ℕ) :
    cumWeight (s :: table) (i + 1) = s.weight + cumWeight table i := by
  simp [cumWeight]

/-- The cumulative weight before the first entry is zero. -/
theorem cumWeight_zero {α : Type} (table : List (Weighted α)) : cumWeight table 0 = 0 := by
  simp [cumWeight]

/-- One more entry adds its weight to the cumulative weight. -/
theorem cumWeight_succ {α : Type} (table : List (Weighted α)) (i : ℕ)
    (hi : i < table.length) :
    cumWeight table (i + 1) = cumWeight table i + (table.get ⟨i, hi⟩).weight := by
  induction table generalizing i with
  | nil => simp at hi
  | cons s rest ih =>
    cases i with
    | zero => simp [cumWeight]
    | succ k =>
      have hk : k < rest.length := by simpa using hi
      rw [cumWeight_cons, cumWeight_cons, ih k hk]
      simp [add_assoc]

/-- With positive weights the cumulative weights are non-decreasing. -/
theorem cumWeight_mono {α : Type} (table : List (Weighted α))
    (hpos : ∀ s ∈ table, 0 < s.weight) : Monotone (cumWeight table) := by
  apply monotone_nat_of_le_succ
  intro k
  by_cases hk : k < table.length
  · rw [cumWeight_succ table k hk]
    have := hpos _ (List.get_mem table k hk)
    linarith
  · have h1 : table.take (k + 1) = table := List.take_of_length_le (by omega)
    have h2 : table.take k = table := List.take_of_length_le (by omega)
    simp [cumWeight, h1, h2]

/-- A draw inside the sub-range of entry `i` makes the selection loop call entry `i`. -/
theorem selectLoop_of_range {α : Type} (r : ℚ) (table : List (Weighted α)) :
    ∀ (c : ℚ) (i : ℕ) (hi : i < table.length), (∀ s ∈ table, 0 < s.weight) →
      c + cumWeight table i ≤ r →
      r < c + cumWeight table i + (table.get ⟨i, hi⟩).weight →
      selectLoop r c table = some (table.get ⟨i, hi⟩).fn := by
  induction table with
  | nil => intro c i hi; simp at hi
  | cons s rest ih =>
    intro c i hi hpos hlo hhi
    cases i with
    | zero =>
      rw [cumWeight_zero] at hhi
      have : r < c + s.weight := by simpa using hhi
      simp [selectLoop, this]
    | succ k =>
      have hk : k < rest.length := by simpa using hi
      have hrest : ∀ t ∈ rest, 0 < t.weight := fun t ht => hpos t (List.mem_cons_of_mem _ ht)
      have hnn : 0 ≤ cumWeight rest k := by
        have := cumWeight_mono rest hrest (Nat.zero_le k)
        rwa [cumWeight_zero] at this
      rw [cumWeight_cons] at hlo hhi
      have hge : ¬ r < c + s.weight := by linarith
      have hstep := ih (c + s.weight) k hk hrest (by linarith)
        (by simpa [add_assoc] using hhi)
      simpa [selectLoop, hge] using hstep

/-- Every draw below the total weight lies in the sub-range of some entry. -/
theorem exists_range_of_lt_total {α : Type} (r : ℚ) (table : List (Weighted α)) :
    ∀ c : ℚ, c ≤ r → r < c + (table.map Weighted.weight).sum →
      ∃ i, ∃ hi : i < table.length,
        c + cumWeight table i ≤ r ∧ r < c + cumWeight table i + (table.get ⟨i, hi⟩).weight := by
  induction table with
  | nil => intro c h1 h2; simp at h2; linarith
  | cons s rest ih =>
    intro c h1 h2
    by_cases h : r < c + s.weight
    · exact ⟨0, by simp, by simpa [cumWeight_zero] using h1, by simpa [cumWeight_zero] using h⟩
    · have h3 : r < c + s.weight + (rest.map Weighted.weight).sum := by
        simpa [add_assoc] using h2
      obtain ⟨i, hi, hlo, hhi⟩ := ih (c + s.weight) (by linarith) h3
      refine ⟨i + 1, by simpa using hi, ?_, ?_⟩
      · rw [cumWeight_cons]; linarith
      · rw [cumWeight_cons]; simpa [add_assoc] using hhi

/-- Interpolating over a fraction 0 and rounding gives back the starting integer. -/
theorem Ramp.roundNearest_lerp_zero (a : ℤ) (b : ℚ) :
    Ramp.roundNearest (Ramp.lerp a b 0) = a := by
  simp only [Ramp.roundNearest, Ramp.lerp, mul_zero, add_zero]
  rw [Int.floor_eq_iff]
  constructor <;> norm_num

/-- The count at the end of stage `i`, for the rule started from any previous target. -/
theorem Ramp.desiredFrom_stageEnd (profile : List Stage) :
    ∀ (prev : ℤ) (i : ℕ) (hi : i < profile.length), (∀ s ∈ profile, 0 ≤ s.duration) →
      (∀ h : i + 1 < profile.length, 0 < (profile.get ⟨i + 1, h⟩).duration) →
      Ramp.desiredFrom prev profile (Ramp.stageEnd profile i)
        = ((profile.get ⟨i, hi⟩).target : ℤ) := by
  induction profile with
  | nil => intro prev i hi; simp at hi
  | cons s rest ih =>
    intro prev i hi hnn hnext
    have hrest : ∀ t ∈ rest, 0 ≤ t.duration := fun t ht => hnn t (List.mem_cons_of_mem _ ht)
    cases i with
    | zero =>
      have hend : Ramp.stageEnd (s :: rest) 0 = s.duration := by simp [Ramp.stageEnd]
      rw [hend]
      cases rest with
      | nil => simp [Ramp.desiredFrom]
      | cons s2 rest2 =>
        have hpos : 0 < s2.duration := by simpa using hnext (by simp)
        have h := Ramp.roundNearest_lerp_zero (s.target : ℤ) (s2.target : ℚ)
        simp only [Int.cast_natCast] at h
        simp [Ramp.desiredFrom, hpos, h]
    | succ k =>
      have hk : k < rest.length := by simpa using hi
      have hend : Ramp.stageEnd (s :: rest) (k + 1) = s.duration + Ramp.stageEnd rest k := by
        simp [Ramp.stageEnd]
      have hge : 0 ≤ Ramp.stageEnd rest k := by
        unfold Ramp.stageEnd
        apply List.sum_nonneg
        intro x hx
        obtain ⟨t, ht, rfl⟩ := List.mem_map.mp hx
        exact hrest t (List.mem_of_mem_take ht)
      have hnot : ¬ s.duration + Ramp.stageEnd rest k < s.duration := by linarith
      have hstep := ih (s.target : ℤ) k hk hrest
        (fun h => by simpa using hnext (by simpa using h))
      rw [hend]
      simpa [Ramp.desiredFrom, hnot] using hstep

/-- The modelled rule reproduces the scenario of the specification (§8): on the profile
`0s->0, 10s->10, 60s->10, 10s->0` the count is 5 at 5 s, 10 at 15 s and at 70 s, and 0 at
80 s. -/
theorem Ramp.desiredVUs_spec_scenario :
    Ramp.desiredVUs [⟨0, 0⟩, ⟨10, 10⟩, ⟨60, 10⟩, ⟨10, 0⟩] 5 = 5 ∧
    Ramp.desiredVUs [⟨0, 0⟩, ⟨10, 10⟩, ⟨60, 10⟩, ⟨10, 0⟩] 15 = 10 ∧
    Ramp.desiredVUs [⟨0, 0⟩, ⟨10, 10⟩, ⟨60, 10⟩, ⟨10, 0⟩] 70 = 10 ∧
    Ramp.desiredVUs [⟨0, 0⟩, ⟨10, 10⟩, ⟨60, 10⟩, ⟨10, 0⟩] 80 = 0 := by
  refine ⟨?_, ?_, ?_, ?_⟩
  · have h : Ramp.roundNearest (Ramp.lerp ((0 : ℤ) : ℚ) ((10 : ℕ) : ℚ) (5 / 10)) = 5 := by
      simp only [Ramp.roundNearest, Ramp.lerp]
      rw [Int.floor_eq_iff]
      constructor <;> norm_num
    simpa [Ramp.desiredVUs, Ramp.desiredFrom] using h
  · have h : Ramp.roundNearest (Ramp.lerp ((10 : ℕ) : ℚ) ((10 : ℕ) : ℚ) (5 / 60)) = 10 := by
      simp only [Ramp.roundNearest, Ramp.lerp]
      rw [Int.floor_eq_iff]
      constructor <;> norm_num
    norm_num [Ramp.desiredVUs, Ramp.desiredFrom] at h ⊢
    exact h
  · have h : Ramp.roundNearest (Ramp.lerp ((10 : ℕ) : ℚ) ((0 : ℕ) : ℚ) (0 / 10)) = 10 := by
      simp only [Ramp.roundNearest, Ramp.lerp]
      rw [Int.floor_eq_iff]
      constructor <;> norm_num
    norm_num [Ramp.desiredVUs, Ramp.desiredFrom] at h ⊢
    exact h
  · norm_num [Ramp.desiredVUs, Ramp.desiredFrom]

/-- C1: for every draw `r` with `0 ≤ r < 100` the default function of the load test runs
exactly one scenario: `testCreateBooking` iff `r < 40`, `testGetBookings` iff `40 ≤ r < 70`,
`testGetBookingByToken` iff `70 ≤ r < 90`, `testStaffOperations` iff `90 ≤ r < 100`. -/
theorem LoadTest.default_runs_one_scenario (r : ℚ) (_h0 : 0 ≤ r) (h100 : r < 100) :
    ∃ s, LoadTest.defaultFn r = some s ∧
      (s = .testCreateBooking ↔ r < 40) ∧
      (s = .testGetBookings ↔ 40 ≤ r ∧ r < 70) ∧
      (s = .testGetBookingByToken ↔ 70 ≤ r ∧ r < 90) ∧
      (s = .testStaffOperations ↔ 90 ≤ r ∧ r < 100) := by
  simp only [LoadTest.defaultFn, LoadTest.scenarios, selectLoop]
  norm_num
  by_cases h1 : r < 40
  · exact ⟨_, by rw [if_pos h1], by simp [h1], by simp; intro h; linarith,
      by simp; intro h; linarith, by simp; intro h; linarith⟩
  · rw [if_neg h1]
    by_cases h2 : r < 70
    · exact ⟨_, by rw [if_pos h2], by simp [h1], by simp; constructor <;> linarith,
        by simp; intro h; linarith, by simp; intro h; linarith⟩
    · rw [if_neg h2]
      by_cases h3 : r < 90
      · exact ⟨_, by rw [if_pos h3], by simp [h1], by simp; intro h; linarith,
          by simp; constructor <;> linarith, by simp; intro h; linarith⟩
      · rw [if_neg h3, if_pos h100]
        exact ⟨_, rfl, by simp [h1], by simp; intro h; linarith,
          by simp; intro h; linarith, by simp; constructor <;> linarith⟩

/-- Witness of C1 at the draw `r = 75`. -/
theorem LoadTest.default_runs_one_scenario_witness :
    (0 : ℚ) ≤ 75 ∧ (75 : ℚ) < 100 ∧
    ∃ s, LoadTest.defaultFn 75 = some s ∧
      (s = .testCreateBooking ↔ (75 : ℚ) < 40) ∧
      (s = .testGetBookings ↔ (40 : ℚ) ≤ 75 ∧ (75 : ℚ) < 70) ∧
      (s = .testGetBookingByToken ↔ (70 : ℚ) ≤ 75 ∧ (75 : ℚ) < 90) ∧
      (s = .testStaffOperations ↔ (90 : ℚ) ≤ 75 ∧ (75 : ℚ) < 100) :=
  ⟨by norm_num, by norm_num,
    LoadTest.default_runs_one_scenario 75 (by norm_num) (by norm_num)⟩

/-- C2 (evaluation of the three booking-creation scenarios on a 409 response): for every
body and duration, `createBooking` of the smoke test and of the spike test observe `false`
into the `errors` Rate, whereas `testCreateBooking` of the load test observes `true`. -/
theorem conflict_response_observations (toNumber : JsValue → Except JsError JsNum)
    (body : Option JsValue) (duration elapsed : ℚ)
    (lvu : LoadTest.VU) (svu : SmokeTest.VU) (kvu : SpikeTest.VU) :
    LoadTest.testCreateBooking toNumber ⟨409, body, duration⟩ lvu
        = .ok { lvu with errors := lvu.errors ++ [true] } ∧
    (SmokeTest.createBooking elapsed ⟨409, body, duration⟩ svu).1.errors
        = svu.errors ++ [false] ∧
    SpikeTest.createBooking ⟨409, body, duration⟩ kvu = .ok ⟨kvu.errors ++ [false]⟩ := by
  obtain ⟨b, hb⟩ := LoadTest.hasAccessTokenCheck_ok toNumber ⟨409, body, duration⟩
  refine ⟨?_, ?_, ?_⟩
  · simp [LoadTest.testCreateBooking, check, hb, bind, Except.bind, pure, Except.pure]
  · simp [SmokeTest.createBooking, check, bind, Except.bind, pure, Except.pure]
  · simp [SpikeTest.createBooking, check, bind, Except.bind, pure, Except.pure]

/-- C3: for every booking-creation response whose status is neither 201 nor 409, each of the
three booking-creation scenarios observes `true` into the `errors` Rate. -/
theorem unexpected_status_observes_error (toNumber : JsValue → Except JsError JsNum)
    (response : Response) (elapsed : ℚ)
    (lvu : LoadTest.VU) (svu : SmokeTest.VU) (kvu : SpikeTest.VU)
    (h201 : response.status ≠ 201) (h409 : response.status ≠ 409) :
    LoadTest.testCreateBooking toNumber response lvu
        = .ok { lvu with errors := lvu.errors ++ [true] } ∧
    (SmokeTest.createBooking elapsed response svu).1.errors = svu.errors ++ [true] ∧
    SpikeTest.createBooking response kvu = .ok ⟨kvu.errors ++ [true]⟩ := by
  obtain ⟨b, hb⟩ := LoadTest.hasAccessTokenCheck_ok toNumber response
  refine ⟨?_, ?_, ?_⟩
  · simp [LoadTest.testCreateBooking, check, hb, h201, bind, Except.bind, pure, Except.pure]
  · simp [SmokeTest.createBooking, check, h201, h409, bind, Except.bind, pure, Except.pure]
  · simp [SpikeTest.createBooking, check, h201, h409, bind, Except.bind, pure, Except.pure]

/-- Witness of C3 at a response with status 500 and a body that is not JSON. -/
theorem unexpected_status_observes_error_witness :
    LoadTest.testCreateBooking (fun _ => .ok .nan) ⟨500, none, 12⟩ ⟨[], .undefined⟩
        = .ok ⟨[true], .undefined⟩ ∧
    (SmokeTest.createBooking 15 ⟨500, none, 12⟩ ⟨[], [], [], 0⟩).1.errors = [true] ∧
    SpikeTest.createBooking ⟨500, none, 12⟩ ⟨[]⟩ = .ok ⟨[true]⟩ :=
  unexpected_status_observes_error (fun _ => .ok .nan) ⟨500, none, 12⟩ 15
    ⟨[], .undefined⟩ ⟨[], [], [], 0⟩ ⟨[]⟩ (by decide) (by decide)

/-- C4: `testGetBookingByToken` observes `false` into the `errors` Rate for every response
with status 404, whatever its duration, and `true` for every response whose status is neither
200 nor 404. -/
theorem LoadTest.testGetBookingByToken_observation (response : Response) (vu : LoadTest.VU) :
    (response.status = 404 →
      LoadTest.testGetBookingByToken response vu
        = .ok { vu with errors := vu.errors ++ [false] }) ∧
    (response.status ≠ 200 → response.status ≠ 404 →
      LoadTest.testGetBookingByToken response vu
        = .ok { vu with errors := vu.errors ++ [true] }) := by
  constructor
  · intro h
    simp [LoadTest.testGetBookingByToken, check, h, bind, Except.bind, pure, Except.pure]
  · intro h200 h404
    simp [LoadTest.testGetBookingByToken, check, h200, h404, bind, Except.bind, pure,
      Except.pure]

/-- Witness of C4: a 404 that took 250 ms is not an error, a 500 is. -/
theorem LoadTest.testGetBookingByToken_observation_witness :
    LoadTest.testGetBookingByToken ⟨404, none, 250⟩ ⟨[], .undefined⟩
        = .ok ⟨[false], .undefined⟩ ∧
    LoadTest.testGetBookingByToken ⟨500, none, 20⟩ ⟨[], .undefined⟩
        = .ok ⟨[true], .undefined⟩ :=
  ⟨(LoadTest.testGetBookingByToken_observation ⟨404, none, 250⟩ ⟨[], .undefined⟩).1 rfl,
   (LoadTest.testGetBookingByToken_observation ⟨500, none, 20⟩ ⟨[], .undefined⟩).2
      (by decide) (by decide)⟩

/-- C5: for every staff-transition response with status 400, whatever its duration,
`testStaffOperations` of the load test (which sends its request only when a token is stored,
and observes nothing otherwise) and `assignBooking` of the smoke test observe `false` into
the `errors` Rate. -/
theorem invalid_transition_not_an_error (response : Response) (lvu : LoadTest.VU)
    (svu : SmokeTest.VU) (h : response.status = 400) :
    LoadTest.testStaffOperations response lvu
        = .ok (if lvu.lastToken.truthy then { lvu with errors := lvu.errors ++ [false] }
               else lvu) ∧
    SmokeTest.assignBooking response svu
        = .ok { svu with errors := svu.errors ++ [false] } := by
  constructor
  · cases ht : lvu.lastToken.truthy <;>
      simp [LoadTest.testStaffOperations, check, h, ht, bind, Except.bind, pure, Except.pure]
  · simp [SmokeTest.assignBooking, check, h, bind, Except.bind, pure, Except.pure]

/-- Witness of C5: a 400 that took 900 ms, with the token `"T1"` stored. -/
theorem invalid_transition_not_an_error_witness :
    LoadTest.testStaffOperations ⟨400, none, 900⟩ ⟨[], .str "T1"⟩
        = .ok ⟨[false], .str "T1"⟩ ∧
    SmokeTest.assignBooking ⟨400, none, 900⟩ ⟨[], [], [], 0⟩ = .ok ⟨[], [], [false], 0⟩ :=
  invalid_transition_not_an_error ⟨400, none, 900⟩ ⟨[], .str "T1"⟩ ⟨[], [], [], 0⟩ rfl

/-- C6 (evaluation): `testCreateBooking` of the load test returns normally for every
response, but `createBooking` of the smoke test throws the `SyntaxError` of `JSON.parse`
when the response has status 201 and a body that is not JSON (after counting the booking as
successful). -/
theorem createBooking_parse_error_propagates :
    (∀ (toNumber : JsValue → Except JsError JsNum) (response : Response) (vu : LoadTest.VU),
      ∃ vu', LoadTest.testCreateBooking toNumber response vu = .ok vu') ∧
    SmokeTest.createBooking 15 ⟨201, none, 12⟩ ⟨[], [], [], 0⟩
      = (⟨[15], [], [true], 1⟩, .error .syntaxError) := by
  constructor
  · intro toNumber response vu
    obtain ⟨b, hb⟩ := LoadTest.hasAccessTokenCheck_ok toNumber response
    by_cases h : response.status = 201
    · obtain ⟨v, hv⟩ := tryCatch_handler_ok
        (do
          let body ← jsonParseBody response
          let token ← getAccessToken body
          if token.truthy then
            pure { ({ vu with errors := vu.errors ++ [!(b && decide (response.duration < 500))] } :
              LoadTest.VU) with lastToken := token }
          else pure { vu with errors := vu.errors ++ [!(b && decide (response.duration < 500))] })
        ({ vu with errors := vu.errors ++ [!(b && decide (response.duration < 500))] } :
          LoadTest.VU)
      refine ⟨v, ?_⟩
      rw [← hv]
      simp [LoadTest.testCreateBooking, check, hb, h, bind, Except.bind, pure, Except.pure]
    · refine ⟨{ vu with errors := vu.errors ++ [true] }, ?_⟩
      simp [LoadTest.testCreateBooking, check, hb, h, bind, Except.bind, pure, Except.pure]
  · simp [SmokeTest.createBooking, check, jsonParseBody, tryCatch, bind, Except.bind, pure,
      Except.pure]

/-- C7 (evaluation of the summary functions on an undefined or zero percentile): whenever
`p(95)` is undefined, `textSummary` of the load test and `handleSummary` of the spike test
throw a `TypeError` instead of rendering "N/A"; in the spike test an undefined `p(99)` is
rendered as "N/A", and so is a `p(99)` that is the number 0. -/
theorem summary_percentile_rendering :
    (∀ (passes fails avg p99 rate count vus : Option ℚ) (options : LoadTest.SummaryOptions),
      LoadTest.textSummary ⟨passes, fails, avg, none, p99, rate, count, vus⟩ options
        = .error .typeError) ∧
    (∀ (passes fails avg p99 rate count vus : Option ℚ),
      (SpikeTest.handleSummary ⟨passes, fails, avg, none, p99, rate, count, vus⟩).2
        = .error .typeError) ∧
    SpikeTest.p99Text none = .ok [.lit "N/A"] ∧
    SpikeTest.p99Text (some 0) = .ok [.lit "N/A"] ∧
    (SpikeTest.handleSummary ⟨some 9, some 1, some 120, some 0, some 0, some 0, some 2, some 5⟩).1
      = [[.lit "\n=== SPIKE TEST RESULTS ===\n"],
         [.lit "Total requests: ", .interp (some 2)],
         [.lit "Failed requests: ", .fixed2 (.fin 0), .lit "%"],
         [.lit "Average response time: ", .fixed2 (.fin 120), .lit "ms"],
         [.lit "95th percentile: ", .fixed2 (.fin 0), .lit "ms"],
         [.lit "99th percentile: ", .lit "N/A"],
         [.lit "Max VUs: ", .interp (some 5)]] := by
  refine ⟨?_, ?_, ?_, ?_, ?_⟩
  · intro passes fails avg p99 rate count vus options
    cases avg <;>
      simp [LoadTest.textSummary, callToFixed2, bind, Except.bind]
  · intro passes fails avg p99 rate count vus
    cases avg <;> simp [SpikeTest.handleSummary, callToFixed2]
  · simp [SpikeTest.p99Text, numTruthy, pure, Except.pure]
  · simp [SpikeTest.p99Text, numTruthy, pure, Except.pure]
  · simp [SpikeTest.handleSummary, SpikeTest.p99Text, callToFixed2, numTruthy, toNum,
      JsNum.mul, pure, Except.pure]

/-- C8 (evaluation of the checks line of `textSummary`): the number before "% pass" is
`passes / fails * 100`; it is 100 for one pass and one fail, 300 for three passes and one
fail, and infinite for five passes and no fail. -/
theorem LoadTest.checks_line_is_pass_fail_ratio :
    LoadTest.textSummary ⟨some 1, some 1, some 120, some 300, some 450, some 0, some 2, some 20⟩
        ⟨" ", true⟩
      = .ok [.lit "\n",
          .lit " ", .lit "✓ checks.........................: ", .fixed2 (.fin 100),
          .lit "% pass\n",
          .lit " ", .lit "✓ http_req_duration..............: avg=", .fixed2 (.fin 120),
          .lit "ms p(95)=", .fixed2 (.fin 300), .lit "ms\n",
          .lit " ", .lit "✓ http_req_failed................: ", .fixed2 (.fin 0),
          .lit "% fail\n",
          .lit " ", .lit "✓ http_reqs......................: ", .interp (some 2),
          .lit " total\n",
          .lit " ", .lit "✓ vus............................: ", .interp (some 20),
          .lit " max\n"] ∧
    (∀ avg p95 p99 rate count vus : Option ℚ,
      LoadTest.checksNumber ⟨some 1, some 1, avg, p95, p99, rate, count, vus⟩ = .fin 100 ∧
      LoadTest.checksNumber ⟨some 3, some 1, avg, p95, p99, rate, count, vus⟩ = .fin 300 ∧
      LoadTest.checksNumber ⟨some 5, some 0, avg, p95, p99, rate, count, vus⟩ = .posInf) := by
  constructor
  · simp [LoadTest.textSummary, LoadTest.checksNumber, callToFixed2, toNum, JsNum.div,
      JsNum.mul, bind, Except.bind, pure, Except.pure]
  · intro avg p95 p99 rate count vus
    refine ⟨?_, ?_, ?_⟩
    · simp [LoadTest.checksNumber, toNum, JsNum.div, JsNum.mul]
    · simp [LoadTest.checksNumber, toNum, JsNum.div, JsNum.mul]
      norm_num
    · simp [LoadTest.checksNumber, toNum, JsNum.div, JsNum.mul]

/-- C9: the weights of the scenario table of the load test are positive and their sum is
100, the bound of the draw `Math.random() * 100`, so the draw ranges over
`[0, total weight)`; every draw selects exactly one scenario: entry `i` is selected on the
sub-range that starts at the sum of the earlier weights and has length `weight i`, a share
`weight i / total weight` of the draw range, and the draw lies in exactly one sub-range. -/
theorem LoadTest.selection_covers_total_weight (r : ℚ) (h0 : 0 ≤ r)
    (h1 : r < LoadTest.drawBound) :
    (∀ s ∈ LoadTest.scenarios, 0 < s.weight) ∧
    (LoadTest.scenarios.map Weighted.weight).sum = LoadTest.drawBound ∧
    ∃ i, ∃ hi : i < LoadTest.scenarios.length,
      LoadTest.defaultFn r = some (LoadTest.scenarios.get ⟨i, hi⟩).fn ∧
      cumWeight LoadTest.scenarios i ≤ r ∧
      r < cumWeight LoadTest.scenarios i + (LoadTest.scenarios.get ⟨i, hi⟩).weight ∧
      (cumWeight LoadTest.scenarios i + (LoadTest.scenarios.get ⟨i, hi⟩).weight
          - cumWeight LoadTest.scenarios i) / (LoadTest.scenarios.map Weighted.weight).sum
        = (LoadTest.scenarios.get ⟨i, hi⟩).weight / 100 ∧
      ∀ j, ∀ hj : j < LoadTest.scenarios.length, cumWeight LoadTest.scenarios j ≤ r →
        r < cumWeight LoadTest.scenarios j + (LoadTest.scenarios.get ⟨j, hj⟩).weight →
        j = i := by
  have hpos : ∀ s ∈ LoadTest.scenarios, 0 < s.weight := by
    intro s hs
    simp [LoadTest.scenarios] at hs
    rcases hs with rfl | rfl | rfl | rfl <;> norm_num
  have hsum : (LoadTest.scenarios.map Weighted.weight).sum = LoadTest.drawBound := by
    simp [LoadTest.scenarios, LoadTest.drawBound]
    norm_num
  have hr1 : r < 0 + (LoadTest.scenarios.map Weighted.weight).sum := by rw [hsum]; linarith
  obtain ⟨i, hi, hlo, hhi⟩ := exists_range_of_lt_total r LoadTest.scenarios 0 h0 hr1
  refine ⟨hpos, hsum, i, hi, ?_, by simpa using hlo, by simpa using hhi, ?_, ?_⟩
  · exact selectLoop_of_range r LoadTest.scenarios 0 i hi hpos hlo hhi
  · rw [hsum]
    simp [LoadTest.drawBound]
  · intro j hj hjlo hjhi
    have hmono := cumWeight_mono LoadTest.scenarios hpos
    simp only [zero_add] at hlo hhi
    rcases Nat.lt_trichotomy j i with h | h | h
    · have := hmono (Nat.succ_le_of_lt h)
      rw [Nat.succ_eq_add_one, cumWeight_succ LoadTest.scenarios j hj] at this
      linarith
    · exact h
    · have := hmono (Nat.succ_le_of_lt h)
      rw [Nat.succ_eq_add_one, cumWeight_succ LoadTest.scenarios i hi] at this
      linarith

/-- Witness of C9 at the draw 75, which lies in the sub-range `[70, 90)` of entry 2. -/
theorem LoadTest.selection_covers_total_weight_witness :
    (∀ s ∈ LoadTest.scenarios, 0 < s.weight) ∧
    (LoadTest.scenarios.map Weighted.weight).sum = LoadTest.drawBound ∧
    ∃ i, ∃ hi : i < LoadTest.scenarios.length,
      LoadTest.defaultFn 75 = some (LoadTest.scenarios.get ⟨i, hi⟩).fn ∧
      cumWeight LoadTest.scenarios i ≤ 75 ∧
      75 < cumWeight LoadTest.scenarios i + (LoadTest.scenarios.get ⟨i, hi⟩).weight ∧
      (cumWeight LoadTest.scenarios i + (LoadTest.scenarios.get ⟨i, hi⟩).weight
          - cumWeight LoadTest.scenarios i) / (LoadTest.scenarios.map Weighted.weight).sum
        = (LoadTest.scenarios.get ⟨i, hi⟩).weight / 100 ∧
      ∀ j, ∀ hj : j < LoadTest.scenarios.length, cumWeight LoadTest.scenarios j ≤ 75 →
        75 < cumWeight LoadTest.scenarios j + (LoadTest.scenarios.get ⟨j, hj⟩).weight →
        j = i :=
  LoadTest.selection_covers_total_weight 75 (by norm_num)
    (by simp [LoadTest.drawBound]; norm_num)

/-- C10 (as stated, refuted): in the profile `0s->5, 0s->7, 10s->10` stage 0 ends at elapsed
time 0, where the desired count is 7 and not the target 5 of stage 0. -/
theorem Ramp.boundary_of_skipped_stage :
    Ramp.stageEnd [⟨0, 5⟩, ⟨0, 7⟩, ⟨10, 10⟩] 0 = 0 ∧
    Ramp.desiredVUs [⟨0, 5⟩, ⟨0, 7⟩, ⟨10, 10⟩] (Ramp.stageEnd [⟨0, 5⟩, ⟨0, 7⟩, ⟨10, 10⟩] 0) = 7 ∧
    Ramp.desiredVUs [⟨0, 5⟩, ⟨0, 7⟩, ⟨10, 10⟩] (Ramp.stageEnd [⟨0, 5⟩, ⟨0, 7⟩, ⟨10, 10⟩] 0)
      ≠ ((5 : ℕ) : ℤ) := by
  have hend : Ramp.stageEnd [⟨0, 5⟩, ⟨0, 7⟩, ⟨10, 10⟩] 0 = 0 := by simp [Ramp.stageEnd]
  have hval : Ramp.desiredVUs [⟨0, 5⟩, ⟨0, 7⟩, ⟨10, 10⟩] 0 = 7 := by
    have h := Ramp.roundNearest_lerp_zero 7 10
    simp only [Int.cast_ofNat] at h
    simp [Ramp.desiredVUs, Ramp.desiredFrom, h]
  rw [hend, hval]
  exact ⟨rfl, rfl, by decide⟩

/-- C10 (amended): for every ramp profile with non-negative durations and every stage `i`
that is the last stage or is followed by a stage of positive duration, the desired VU count
at the elapsed time at which stage `i` ends equals the target of stage `i`. -/
theorem Ramp.desiredVUs_at_stage_end (profile : List Stage) (i : ℕ)
    (hi : i < profile.length) (hnn : ∀ s ∈ profile, 0 ≤ s.duration)
    (hnext : ∀ h : i + 1 < profile.length, 0 < (profile.get ⟨i + 1, h⟩).duration) :
    Ramp.desiredVUs profile (Ramp.stageEnd profile i) = ((profile.get ⟨i, hi⟩).target : ℤ) :=
  Ramp.desiredFrom_stageEnd profile 0 i hi hnn hnext

/-- Witness of C10 (amended): the end of the third stage (30 s -> 50) of the load test,
at 120 s, where the desired count is 50. -/
theorem Ramp.desiredVUs_at_stage_end_witness :
    Ramp.desiredVUs LoadTest.stages (Ramp.stageEnd LoadTest.stages 2) = 50 :=
  Ramp.desiredVUs_at_stage_end LoadTest.stages 2 (by decide)
    (by
      intro s hs
      simp [LoadTest.stages] at hs
      rcases hs with rfl | rfl | rfl | rfl | rfl <;> norm_num)
    (by
      intro h
      show (0 : ℚ) < 60
      norm_num)

/-! ## Theorems on the further scenario code -/

/-- The scenario selected in an iteration is the one dispatched on the draw. -/
theorem LoadTest.iteration_selected (toNumber : JsValue → Except JsError JsNum)
    (random : ℚ) (response : Response) (vu : LoadTest.VU) :
    (LoadTest.iteration toNumber random response vu).1 = LoadTest.defaultFn random := by
  unfold LoadTest.iteration
  split
  · rename_i h
    rw [h]
  · rename_i fn h
    rw [h]
    split <;> rfl

/-- The scenarios selected over a run are the dispatches of its draws. -/
theorem LoadTest.selectedScenarios_eq_map (toNumber : JsValue → Except JsError JsNum)
    (steps : List (ℚ × Response)) :
    ∀ vu : LoadTest.VU, LoadTest.selectedScenarios toNumber steps vu
      = (steps.map Prod.fst).map LoadTest.defaultFn := by
  induction steps with
  | nil => intro vu; rfl
  | cons step rest ih =>
    intro vu
    simp only [LoadTest.selectedScenarios, List.map_cons, LoadTest.iteration_selected, ih]

/-- An issued token is truthy. -/
theorem LoadTest.issuedToken_truthy (response : Response) (token : JsValue)
    (h : LoadTest.issuedToken response = some token) : token.truthy = true := by
  unfold LoadTest.issuedToken at h
  split at h
  · split at h
    · simp at h
    · split at h
      · simp at h
      · split at h
        · rename_i ht
          simp only [Option.some.injEq] at h
          rw [← h]; exact ht
        · simp at h
  · simp at h

/-- The function `testCreateBooking` returns, and it stores the token issued by the response
when there is one and keeps the stored token otherwise. -/
theorem LoadTest.testCreateBooking_lastToken (toNumber : JsValue → Except JsError JsNum)
    (response : Response) (vu : LoadTest.VU) :
    ∃ vu', LoadTest.testCreateBooking toNumber response vu = .ok vu' ∧
      vu'.lastToken = (LoadTest.issuedToken response).getD vu.lastToken := by
  obtain ⟨b, hb⟩ := LoadTest.hasAccessTokenCheck_ok toNumber response
  refine ⟨⟨vu.errors ++ [!(decide (response.status = 201) &&
      (b && decide (response.duration < 500)))],
    (LoadTest.issuedToken response).getD vu.lastToken⟩, ?_, rfl⟩
  by_cases h : response.status = 201
  · cases hp : response.parsedBody with
    | none =>
      simp [LoadTest.testCreateBooking, LoadTest.issuedToken, check, hb, h, jsonParseBody, hp,
        tryCatch, bind, Except.bind, pure, Except.pure]
    | some body =>
      cases hg : getAccessToken body with
      | error e =>
        simp [LoadTest.testCreateBooking, LoadTest.issuedToken, check, hb, h, jsonParseBody, hp,
          hg, tryCatch, bind, Except.bind, pure, Except.pure]
      | ok token =>
        cases ht : token.truthy <;>
          simp [LoadTest.testCreateBooking, LoadTest.issuedToken, check, hb, h, jsonParseBody,
            hp, hg, ht, tryCatch, bind, Except.bind, pure, Except.pure]
  · simp [LoadTest.testCreateBooking, LoadTest.issuedToken, check, hb, h, bind, Except.bind,
      pure, Except.pure]

/-- A sequence of `testCreateBooking` calls returns, and the stored token is then the one
issued by the most recent response that issued one, or the token stored before. -/
theorem LoadTest.createBookings_lastToken (toNumber : JsValue → Except JsError JsNum)
    (responses : List Response) :
    ∀ vu : LoadTest.VU, ∃ vu', LoadTest.createBookings toNumber responses vu = .ok vu' ∧
      vu'.lastToken
        = (responses.reverse.findSome? LoadTest.issuedToken).getD vu.lastToken := by
  induction responses with
  | nil => intro vu; exact ⟨vu, rfl, rfl⟩
  | cons response rest ih =>
    intro vu
    obtain ⟨vu1, h1, ht1⟩ := LoadTest.testCreateBooking_lastToken toNumber response vu
    obtain ⟨vu2, h2, ht2⟩ := ih vu1
    refine ⟨vu2, ?_, ?_⟩
    · simp [LoadTest.createBookings, h1, h2, bind, Except.bind]
    · rw [ht2, ht1, List.reverse_cons, List.findSome?_append]
      cases hrest : List.findSome? LoadTest.issuedToken rest.reverse with
      | some t => simp
      | none => cases hi : LoadTest.issuedToken response <;> simp [List.findSome?, hi]

/-- C11: in `createBooking` of the smoke test the `successful_bookings` Counter is
incremented by exactly 1 if and only if the response status is 201; for every other status
the Counter is unchanged and the function returns `null`. -/
theorem SmokeTest.createBooking_counts_created (elapsed : ℚ) (response : Response)
    (vu : SmokeTest.VU) :
    ((SmokeTest.createBooking elapsed response vu).1.successfulBookings
        = vu.successfulBookings + 1 ↔ response.status = 201) ∧
    (response.status ≠ 201 →
      (SmokeTest.createBooking elapsed response vu).1.successfulBookings
          = vu.successfulBookings ∧
      (SmokeTest.createBooking elapsed response vu).2 = .ok .null) := by
  by_cases h : response.status = 201
  · obtain ⟨b, hb⟩ := tryCatch_handler_ok
      (do
        let body ← jsonParseBody response
        let token ← getAccessToken body
        pure (isDefined token)) false
    simp only [bind, Except.bind, pure, Except.pure] at hb
    simp [SmokeTest.createBooking, check, h, hb, bind, Except.bind, pure, Except.pure]
  · simp [SmokeTest.createBooking, check, h, bind, Except.bind, pure, Except.pure]

/-- Witness of C11: a 201 with a token counts one booking, a 409 counts none and returns
`null`. -/
theorem SmokeTest.createBooking_counts_created_witness :
    (SmokeTest.createBooking 15 ⟨201, some (.obj [("accessToken", .str "T1")]), 12⟩
        ⟨[], [], [], 3⟩).1.successfulBookings = 3 + 1 ∧
    (SmokeTest.createBooking 15 ⟨409, none, 12⟩ ⟨[], [], [], 3⟩).1.successfulBookings = 3 ∧
    (SmokeTest.createBooking 15 ⟨409, none, 12⟩ ⟨[], [], [], 3⟩).2 = .ok .null :=
  ⟨(SmokeTest.createBooking_counts_created 15
      ⟨201, some (.obj [("accessToken", .str "T1")]), 12⟩ ⟨[], [], [], 3⟩).1.mpr rfl,
   ((SmokeTest.createBooking_counts_created 15 ⟨409, none, 12⟩ ⟨[], [], [], 3⟩).2
      (by decide)).1,
   ((SmokeTest.createBooking_counts_created 15 ⟨409, none, 12⟩ ⟨[], [], [], 3⟩).2
      (by decide)).2⟩

/-- Two values from different parses are strictly equal exactly when they are the same
primitive value. -/
theorem strictEq_eq_true_iff (a b : JsValue) :
    strictEq a b = true ↔ a = b ∧ b.isPrimitive = true := by
  cases a <;> cases b <;> simp [strictEq, JsValue.isPrimitive]

/-- C12: `retrieveBooking` of the smoke test observes `false` into the `errors` Rate if and
only if the response status is 200 and the body parses as JSON whose `accessToken` is the
token that was looked up (a primitive value, such as the string that the service issues; an
array or object of another parse is never identical to the token); in every other case,
a body that is not JSON included, it observes `true`. -/
theorem SmokeTest.retrieveBooking_observation (elapsed : ℚ) (token : JsValue)
    (response : Response) (vu : SmokeTest.VU) :
    ∃ observed : Bool,
      SmokeTest.retrieveBooking elapsed token response vu
        = .ok { vu with
                bookingRetrievalTime := vu.bookingRetrievalTime ++ [elapsed]
                errors := vu.errors ++ [observed] } ∧
      (observed = false ↔
        response.status = 200 ∧ token.isPrimitive = true ∧
        ∃ body, response.parsedBody = some body ∧ getAccessToken body = .ok token) ∧
      (observed = true ↔
        ¬ (response.status = 200 ∧ token.isPrimitive = true ∧
          ∃ body, response.parsedBody = some body ∧ getAccessToken body = .ok token)) := by
  have key : ∃ c : Bool,
      tryCatch
        (do
          let body ← jsonParseBody response
          let echoed ← getAccessToken body
          pure (strictEq echoed token))
        (.ok false) = .ok c ∧
      (c = true ↔ token.isPrimitive = true ∧
        ∃ body, response.parsedBody = some body ∧ getAccessToken body = .ok token) := by
    cases hp : response.parsedBody with
    | none =>
      exact ⟨false, by simp [jsonParseBody, hp, tryCatch, bind, Except.bind], by simp⟩
    | some body =>
      cases hg : getAccessToken body with
      | error e =>
        exact ⟨false, by simp [jsonParseBody, hp, hg, tryCatch, bind, Except.bind],
          by simp [hg]⟩
      | ok echoed =>
        refine ⟨strictEq echoed token,
          by simp [jsonParseBody, hp, hg, tryCatch, bind, Except.bind, pure, Except.pure],
          ?_⟩
        rw [strictEq_eq_true_iff]
        constructor
        · rintro ⟨heq, hprim⟩
          exact ⟨hprim, body, rfl, by rw [hg, heq]⟩
        · rintro ⟨hprim, body', hb, hg'⟩
          have hbody : body = body' := Option.some.inj hb
          subst hbody
          rw [hg] at hg'
          exact ⟨Except.ok.inj hg', hprim⟩
  obtain ⟨c, hc, hiff⟩ := key
  simp only [bind, Except.bind, pure, Except.pure] at hc
  refine ⟨!(decide (response.status = 200) && c), ?_, ?_, ?_⟩
  · simp [SmokeTest.retrieveBooking, check, hc, bind, Except.bind, pure, Except.pure]
  · rw [← hiff]
    cases c <;> simp
  · rw [← hiff]
    cases c <;> simp

/-- Witness of C12, for the looked-up token `T1`: a 200 whose body echoes `T1` is observed
as `false`; a 200 whose body carries `T2`, a 200 whose body is not JSON and a 404 that
echoes `T1` are observed as `true`. -/
theorem SmokeTest.retrieveBooking_observation_witness :
    SmokeTest.retrieveBooking 8 (.str "T1")
        ⟨200, some (.obj [("id", .num 7), ("accessToken", .str "T1")]), 30⟩ ⟨[], [], [], 0⟩
      = .ok ⟨[], [8], [false], 0⟩ ∧
    SmokeTest.retrieveBooking 8 (.str "T1")
        ⟨200, some (.obj [("accessToken", .str "T2")]), 30⟩ ⟨[], [], [], 0⟩
      = .ok ⟨[], [8], [true], 0⟩ ∧
    SmokeTest.retrieveBooking 8 (.str "T1") ⟨200, none, 30⟩ ⟨[], [], [], 0⟩
      = .ok ⟨[], [8], [true], 0⟩ ∧
    SmokeTest.retrieveBooking 8 (.str "T1")
        ⟨404, some (.obj [("accessToken", .str "T1")]), 30⟩ ⟨[], [], [], 0⟩
      = .ok ⟨[], [8], [true], 0⟩ := by
  refine ⟨?_, ?_, ?_, ?_⟩
  · obtain ⟨observed, hrun, hfalse, _⟩ := SmokeTest.retrieveBooking_observation 8 (.str "T1")
      ⟨200, some (.obj [("id", .num 7), ("accessToken", .str "T1")]), 30⟩ ⟨[], [], [], 0⟩
    have hobs : observed = false :=
      hfalse.mpr ⟨rfl, rfl, _, rfl, by simp [getAccessToken, List.lookup]⟩
    rw [hobs] at hrun
    exact hrun
  · obtain ⟨observed, hrun, _, htrue⟩ := SmokeTest.retrieveBooking_observation 8 (.str "T1")
      ⟨200, some (.obj [("accessToken", .str "T2")]), 30⟩ ⟨[], [], [], 0⟩
    have hobs : observed = true := by
      apply htrue.mpr
      rintro ⟨_, _, body, hb, hg⟩
      have hbody := Option.some.inj hb
      subst hbody
      simp [getAccessToken, List.lookup] at hg
    rw [hobs] at hrun
    exact hrun
  · obtain ⟨observed, hrun, _, htrue⟩ := SmokeTest.retrieveBooking_observation 8 (.str "T1")
      ⟨200, none, 30⟩ ⟨[], [], [], 0⟩
    have hobs : observed = true := by
      apply htrue.mpr
      rintro ⟨_, _, body, hb, _⟩
      exact Option.noConfusion hb
    rw [hobs] at hrun
    exact hrun
  · obtain ⟨observed, hrun, _, htrue⟩ := SmokeTest.retrieveBooking_observation 8 (.str "T1")
      ⟨404, some (.obj [("accessToken", .str "T1")]), 30⟩ ⟨[], [], [], 0⟩
    have hobs : observed = true := by
      apply htrue.mpr
      rintro ⟨hstatus, _⟩
      exact absurd hstatus (by decide)
    rw [hobs] at hrun
    exact hrun

/-- C13: for every draw `s` with `0 ≤ s < 1` the default function of the spike test runs
`createBooking` iff `s < 0.5`, `listBookings` iff `0.5 ≤ s < 0.8` and `checkDashboard` iff
`0.8 ≤ s < 1`; the three sub-ranges have lengths 0.5, 0.3 and 0.2. -/
theorem SpikeTest.default_dispatch (s : ℚ) (h0 : 0 ≤ s) (h1 : s < 1) :
    (SpikeTest.defaultFn s = .createBooking ↔ 0 ≤ s ∧ s < 0.5) ∧
    (SpikeTest.defaultFn s = .listBookings ↔ 0.5 ≤ s ∧ s < 0.8) ∧
    (SpikeTest.defaultFn s = .checkDashboard ↔ 0.8 ≤ s ∧ s < 1) ∧
    ((0.5 : ℚ) - 0 = 0.5 ∧ (0.8 : ℚ) - 0.5 = 0.3 ∧ (1 : ℚ) - 0.8 = 0.2) := by
  have e5 : (0.5 : ℚ) = 1 / 2 := by norm_num
  have e8 : (0.8 : ℚ) = 4 / 5 := by norm_num
  have e3 : (0.3 : ℚ) = 3 / 10 := by norm_num
  have e2 : (0.2 : ℚ) = 1 / 5 := by norm_num
  unfold SpikeTest.defaultFn
  rw [e5, e8, e3, e2]
  by_cases a : s < 1 / 2
  · rw [if_pos a]
    refine ⟨?_, ?_, ?_, by norm_num⟩ <;> constructor <;> intro h <;>
      first
        | rfl
        | exact ⟨by linarith, by linarith⟩
        | exact absurd h (by decide)
        | (exfalso; linarith [h.1, h.2])
  · rw [if_neg a]
    by_cases b : s < 4 / 5
    · rw [if_pos b]
      refine ⟨?_, ?_, ?_, by norm_num⟩ <;> constructor <;> intro h <;>
        first
          | rfl
          | exact ⟨by linarith, by linarith⟩
          | exact absurd h (by decide)
          | (exfalso; linarith [h.1, h.2])
    · rw [if_neg b]
      refine ⟨?_, ?_, ?_, by norm_num⟩ <;> constructor <;> intro h <;>
        first
          | rfl
          | exact ⟨by linarith, by linarith⟩
          | exact absurd h (by decide)
          | (exfalso; linarith [h.1, h.2])

/-- Witness of C13 at the draw `s = 3/5`, which runs `listBookings`. -/
theorem SpikeTest.default_dispatch_witness :
    (SpikeTest.defaultFn (3 / 5) = .createBooking ↔ (0 : ℚ) ≤ 3 / 5 ∧ (3 / 5 : ℚ) < 0.5) ∧
    (SpikeTest.defaultFn (3 / 5) = .listBookings ↔ (0.5 : ℚ) ≤ 3 / 5 ∧ (3 / 5 : ℚ) < 0.8) ∧
    (SpikeTest.defaultFn (3 / 5) = .checkDashboard ↔ (0.8 : ℚ) ≤ 3 / 5 ∧ (3 / 5 : ℚ) < 1) ∧
    ((0.5 : ℚ) - 0 = 0.5 ∧ (0.8 : ℚ) - 0.5 = 0.3 ∧ (1 : ℚ) - 0.8 = 0.2) :=
  SpikeTest.default_dispatch (3 / 5) (by norm_num) (by norm_num)

/-- C14 (evaluation of `daysAhead`): VU 1 in iteration 10 and VU 2 in iteration 0 both get
the day offset 70, and VU 1 in iteration 50 and VU 6 in iteration 0 both get the day offset
150 for the same municipality index. -/
theorem SmokeTest.daysAhead_collision :
    (1 : ℕ) ≠ 2 ∧ SmokeTest.daysAhead 1 10 = 70 ∧ SmokeTest.daysAhead 2 0 = 70 ∧
    (1 : ℕ) ≠ 6 ∧ SmokeTest.daysAhead 1 50 = 150 ∧ SmokeTest.daysAhead 6 0 = 150 ∧
    SmokeTest.municipalityIndex 1 = SmokeTest.municipalityIndex 6 := by
  decide

/-- C15: the scenarios selected by the load test depend on the draws alone: two executions
over the same sequence of draws select the identical sequence of scenarios, whatever the
responses received, the state of the VU and the engine are. -/
theorem LoadTest.selection_depends_on_draws_only
    (toNumber₁ toNumber₂ : JsValue → Except JsError JsNum)
    (steps₁ steps₂ : List (ℚ × Response)) (vu₁ vu₂ : LoadTest.VU)
    (h : steps₁.map Prod.fst = steps₂.map Prod.fst) :
    LoadTest.selectedScenarios toNumber₁ steps₁ vu₁
      = LoadTest.selectedScenarios toNumber₂ steps₂ vu₂ ∧
    (LoadTest.selectedScenarios toNumber₁ steps₁ vu₁).length = steps₁.length := by
  rw [LoadTest.selectedScenarios_eq_map, LoadTest.selectedScenarios_eq_map, h]
  simp [← h]

/-- Witness of C15: the draws 10 and 95 with different responses and different states. -/
theorem LoadTest.selection_depends_on_draws_only_witness :
    LoadTest.selectedScenarios (fun _ => .ok .nan)
        [(10, ⟨201, none, 12⟩), (95, ⟨200, none, 30⟩)] ⟨[], .undefined⟩
      = LoadTest.selectedScenarios (fun _ => .error .typeError)
        [(10, ⟨500, some .null, 700⟩), (95, ⟨400, none, 5⟩)] ⟨[true], .str "T1"⟩ ∧
    (LoadTest.selectedScenarios (fun _ => .ok .nan)
        [(10, ⟨201, none, 12⟩), (95, ⟨200, none, 30⟩)] ⟨[], .undefined⟩).length
      = [((10 : ℚ), (⟨201, none, 12⟩ : Response)), (95, ⟨200, none, 30⟩)].length :=
  LoadTest.selection_depends_on_draws_only (fun _ => .ok .nan) (fun _ => .error .typeError)
    [(10, ⟨201, none, 12⟩), (95, ⟨200, none, 30⟩)]
    [(10, ⟨500, some .null, 700⟩), (95, ⟨400, none, 5⟩)]
    ⟨[], .undefined⟩ ⟨[true], .str "T1"⟩ rfl

/-- C16: after any sequence of `testCreateBooking` responses, starting with no stored token,
`testGetBookingByToken` looks up the access token of the most recent response that had
status 201 and a parseable body with a non-empty `accessToken`, or the placeholder
`PORTO-2025-TESTTOKEN` when there was none; and a response that issues no token leaves the
stored token unchanged. -/
theorem LoadTest.lookup_token_after_creations (toNumber : JsValue → Except JsError JsNum)
    (responses : List Response) (errors : List Bool) :
    (∃ vu', LoadTest.createBookings toNumber responses ⟨errors, .undefined⟩ = .ok vu' ∧
      LoadTest.lookupToken vu' = LoadTest.expectedLookupToken responses) ∧
    (∀ (response : Response) (vu : LoadTest.VU), LoadTest.issuedToken response = none →
      ∃ vu', LoadTest.testCreateBooking toNumber response vu = .ok vu' ∧
        vu'.lastToken = vu.lastToken) := by
  constructor
  · obtain ⟨vu', hrun, htok⟩ :=
      LoadTest.createBookings_lastToken toNumber responses ⟨errors, .undefined⟩
    refine ⟨vu', hrun, ?_⟩
    unfold LoadTest.lookupToken LoadTest.expectedLookupToken
    rw [htok]
    cases hfind : List.findSome? LoadTest.issuedToken responses.reverse with
    | none => simp [JsValue.truthy, LoadTest.placeholderToken]
    | some token =>
      obtain ⟨r, _, hr⟩ := List.exists_of_findSome?_eq_some hfind
      have ht := LoadTest.issuedToken_truthy r token hr
      simp [ht]
  · intro response vu hnone
    obtain ⟨vu', hrun, htok⟩ := LoadTest.testCreateBooking_lastToken toNumber response vu
    exact ⟨vu', hrun, by rw [htok, hnone]; rfl⟩

/-- Witness of C16: a 201 issuing `T1`, then a 201 issuing `T2`, then a 409 and a 201 whose
body is not JSON; the token looked up is `T2`, and the 409 leaves a stored token unchanged. -/
theorem LoadTest.lookup_token_after_creations_witness :
    (∃ vu', LoadTest.createBookings (fun _ => .ok .nan)
        [⟨201, some (.obj [("accessToken", .str "T1")]), 12⟩,
         ⟨201, some (.obj [("accessToken", .str "T2")]), 12⟩,
         ⟨409, none, 12⟩, ⟨201, none, 12⟩] ⟨[], .undefined⟩ = .ok vu' ∧
      LoadTest.lookupToken vu' = .str "T2") ∧
    (∃ vu', LoadTest.testCreateBooking (fun _ => .ok .nan) ⟨409, none, 12⟩ ⟨[], .str "T1"⟩
        = .ok vu' ∧ vu'.lastToken = .str "T1") := by
  have h := LoadTest.lookup_token_after_creations (fun _ => .ok .nan)
    [⟨201, some (.obj [("accessToken", .str "T1")]), 12⟩,
     ⟨201, some (.obj [("accessToken", .str "T2")]), 12⟩,
     ⟨409, none, 12⟩, ⟨201, none, 12⟩] []
  refine ⟨?_, h.2 ⟨409, none, 12⟩ ⟨[], .str "T1"⟩ (by simp [LoadTest.issuedToken])⟩
  obtain ⟨vu', hrun, htok⟩ := h.1
  refine ⟨vu', hrun, ?_⟩
  rw [htok]
  simp [LoadTest.expectedLookupToken, LoadTest.issuedToken, List.findSome?, getAccessToken,
    List.lookup, JsValue.truthy]

end K6

namespace Portal

/-! ## Theorems on the web portals -/

/-- The order of the comparator is total. -/
theorem Dashboard.countDescending_total (a b : String × ℚ) :
    Dashboard.countDescending a b ∨ Dashboard.countDescending b a :=
  le_total b.2 a.2

/-- The order of the comparator is transitive. -/
theorem Dashboard.countDescending_trans (a b c : String × ℚ)
    (hab : Dashboard.countDescending a b) (hbc : Dashboard.countDescending b c) :
    Dashboard.countDescending a c :=
  le_trans hbc hab

/-- The sorted entries are in non-increasing order of count. -/
theorem Dashboard.sortEntries_sorted (entries : List (String × ℚ)) :
    (Dashboard.sortEntries entries).Sorted Dashboard.countDescending := by
  haveI : IsTotal (String × ℚ) Dashboard.countDescending :=
    ⟨Dashboard.countDescending_total⟩
  haveI : IsTrans (String × ℚ) Dashboard.countDescending :=
    ⟨Dashboard.countDescending_trans⟩
  exact List.sorted_insertionSort Dashboard.countDescending entries

/-- The sort keeps entries of equal count in their original order: on Aveiro 1, Braga 2,
Coimbra 1, Faro 2 it gives Braga, Faro, Aveiro, Coimbra. -/
theorem Dashboard.sortEntries_stable_example :
    Dashboard.sortEntries [("Aveiro", 1), ("Braga", 2), ("Coimbra", 1), ("Faro", 2)]
      = [("Braga", 2), ("Faro", 2), ("Aveiro", 1), ("Coimbra", 1)] := by
  simp [Dashboard.sortEntries, List.insertionSort, List.orderedInsert,
    Dashboard.countDescending]

/-- Adding an item makes the form one item longer. -/
theorem Citizen.addBulkItem_length (form : Citizen.Form) :
    (Citizen.addBulkItem form).items.length = form.items.length + 1 := by
  simp [Citizen.addBulkItem]

/-- Removing an item from a non-empty form returns when the form has a single item or the
item is in the form, and the form stays non-empty. -/
theorem Citizen.removeBulkItem_keeps_one (id : ℕ) (form form' : Citizen.Form)
    (hlen : 1 ≤ form.items.length) (hrun : Citizen.removeBulkItem id form = .ok form') :
    1 ≤ form'.items.length := by
  unfold Citizen.removeBulkItem at hrun
  split at hrun
  · rename_i hgt
    split at hrun
    · rename_i hmem
      simp only [Except.ok.injEq] at hrun
      rw [← hrun]
      simp only [List.length_erase_of_mem hmem]
      omega
    · simp at hrun
  · simp only [Except.ok.injEq] at hrun
    rw [← hrun]
    exact hlen

/-- C17: for every booking status `updateModalFooter` offers a status-changing button exactly
in these cases: Assign (to `ASSIGNED`) for `RECEIVED`, Start Collection (to `IN_PROGRESS`) for
`ASSIGNED`, Mark Complete (to `COMPLETED`) for `IN_PROGRESS`, and Cancel if and only if the
status is neither `COMPLETED` nor `CANCELLED`; so at most one forward-transition button is
offered, and none at all for `COMPLETED` and `CANCELLED`. -/
theorem Staff.updateModalFooter_buttons (status : String) :
    (∀ target : String,
      Staff.Action.updateBookingStatus target
          ∈ (Staff.updateModalFooter status).map Staff.Button.onclick ↔
        (status = "RECEIVED" ∧ target = "ASSIGNED") ∨
        (status = "ASSIGNED" ∧ target = "IN_PROGRESS") ∨
        (status = "IN_PROGRESS" ∧ target = "COMPLETED") ∨
        (status ≠ "COMPLETED" ∧ status ≠ "CANCELLED" ∧ target = "CANCELLED")) ∧
    (((Staff.updateModalFooter status).map Staff.Button.onclick).filter
        (fun a => decide (a ≠ Staff.Action.closeDetailsModal ∧
          a ≠ Staff.Action.updateBookingStatus "CANCELLED"))).length ≤ 1 ∧
    ((⟨"btn btn-warning", .updateBookingStatus "ASSIGNED", "📋 Assign"⟩ : Staff.Button)
        ∈ Staff.updateModalFooter status ↔ status = "RECEIVED") ∧
    ((⟨"btn btn-primary", .updateBookingStatus "IN_PROGRESS", "🚚 Start Collection"⟩ :
        Staff.Button) ∈ Staff.updateModalFooter status ↔ status = "ASSIGNED") ∧
    ((⟨"btn btn-success", .updateBookingStatus "COMPLETED", "✅ Mark Complete"⟩ : Staff.Button)
        ∈ Staff.updateModalFooter status ↔ status = "IN_PROGRESS") ∧
    ((⟨"btn btn-danger", .updateBookingStatus "CANCELLED", "❌ Cancel"⟩ : Staff.Button)
        ∈ Staff.updateModalFooter status ↔ status ≠ "COMPLETED" ∧ status ≠ "CANCELLED") := by
  by_cases h1 : status = "RECEIVED"
  · subst h1
    refine ⟨fun target => ?_, by decide, by decide, by decide, by decide, by decide⟩
    simp [Staff.updateModalFooter]
  by_cases h2 : status = "ASSIGNED"
  · subst h2
    refine ⟨fun target => ?_, by decide, by decide, by decide, by decide, by decide⟩
    simp [Staff.updateModalFooter]
  by_cases h3 : status = "IN_PROGRESS"
  · subst h3
    refine ⟨fun target => ?_, by decide, by decide, by decide, by decide, by decide⟩
    simp [Staff.updateModalFooter]
  by_cases h4 : status = "COMPLETED"
  · subst h4
    refine ⟨fun target => ?_, by decide, by decide, by decide, by decide, by decide⟩
    simp [Staff.updateModalFooter]
  by_cases h5 : status = "CANCELLED"
  · subst h5
    refine ⟨fun target => ?_, by decide, by decide, by decide, by decide, by decide⟩
    simp [Staff.updateModalFooter]
  refine ⟨fun target => ?_, ?_, ?_, ?_, ?_, ?_⟩ <;>
    simp [Staff.updateModalFooter, h1, h2, h3, h4, h5]

/-- C18: in `render`, for every `byMunicipality` mapping with `n` entries, the list `top` of
the municipality chart and table has `min 10 n` entries in non-increasing order of count,
every entry left out of it has a count that is at most the count of every entry in it, and
the full breakdown list is a permutation of the `n` entries in non-increasing order of
count. -/
theorem Dashboard.render_top_municipalities (page : Dashboard.Page)
    (byStatus : Option (List (String × ℚ))) (entries : List (String × ℚ))
    (total : Option ℚ) :
    (Dashboard.render page ⟨byStatus, some entries, total⟩).topRows.length
        = min 10 entries.length ∧
    (Dashboard.render page ⟨byStatus, some entries, total⟩).topRows.Sorted
        Dashboard.countDescending ∧
    (Dashboard.render page ⟨byStatus, some entries, total⟩).muniLabels
        = (Dashboard.render page ⟨byStatus, some entries, total⟩).topRows.map Prod.fst ∧
    (Dashboard.render page ⟨byStatus, some entries, total⟩).muniValues
        = (Dashboard.render page ⟨byStatus, some entries, total⟩).topRows.map Prod.snd ∧
    (Dashboard.render page ⟨byStatus, some entries, total⟩).topRows
        ++ (Dashboard.sortEntries entries).drop 10 = Dashboard.sortEntries entries ∧
    (∀ out ∈ (Dashboard.sortEntries entries).drop 10,
      ∀ shown ∈ (Dashboard.render page ⟨byStatus, some entries, total⟩).topRows,
        out.2 ≤ shown.2) ∧
    (Dashboard.render page ⟨byStatus, some entries, total⟩).breakdownRows
        = (if page.muniBreakdownTbody then some (Dashboard.sortEntries entries) else none) ∧
    (Dashboard.sortEntries entries).Perm entries ∧
    (Dashboard.sortEntries entries).Sorted Dashboard.countDescending := by
  have hsorted := Dashboard.sortEntries_sorted entries
  have hsplit : (Dashboard.sortEntries entries).take 10 ++ (Dashboard.sortEntries entries).drop 10
      = Dashboard.sortEntries entries := List.take_append_drop 10 _
  refine ⟨?_, ?_, rfl, rfl, hsplit, ?_, rfl, ?_, hsorted⟩
  · simp [Dashboard.render, Dashboard.sortEntries, List.length_insertionSort]
  · exact List.Pairwise.sublist (List.take_sublist 10 _) hsorted
  · intro out hout shown hshown
    have hpair : ((Dashboard.sortEntries entries).take 10
        ++ (Dashboard.sortEntries entries).drop 10).Pairwise Dashboard.countDescending := by
      rw [hsplit]; exact hsorted
    exact (List.pairwise_append.mp hpair).2.2 shown hshown out hout
  · exact List.perm_insertionSort Dashboard.countDescending entries

/-- C19: in every state of the citizen form that is reached from the loaded page by adding
an item, removing an item that is in the form and resetting the form, the form holds at
least one bulk item; removing an item that is in the form returns and leaves at least one
item; and `removeBulkItem` on a form with exactly one item removes nothing. -/
theorem Citizen.form_keeps_an_item (form : Citizen.Form) (h : Citizen.Reachable form) :
    1 ≤ form.items.length ∧
    (∀ id ∈ form.items, ∃ form', Citizen.removeBulkItem id form = .ok form' ∧
      1 ≤ form'.items.length) ∧
    (form.items.length = 1 → ∀ id, ∃ form', Citizen.removeBulkItem id form = .ok form' ∧
      form'.items = form.items) := by
  have hlen : 1 ≤ form.items.length := by
    induction h with
    | loaded => decide
    | add f _ ih => rw [Citizen.addBulkItem_length]; omega
    | remove f f' id _ _ hrun ih => exact Citizen.removeBulkItem_keeps_one id f f' ih hrun
    | reset f _ _ => simp [Citizen.resetForm, Citizen.addBulkItem]
  refine ⟨hlen, ?_, ?_⟩
  · intro id hmem
    by_cases hgt : form.items.length > 1
    · refine ⟨{ form with items := form.items.erase id }, ?_, ?_⟩
      · simp [Citizen.removeBulkItem, hgt, hmem]
      · simp only [List.length_erase_of_mem hmem]
        omega
    · refine ⟨{ form with alerts := form.alerts ++ ["You must have at least one item"] }, ?_,
        hlen⟩
      simp [Citizen.removeBulkItem, hgt]
  · intro hone id
    refine ⟨{ form with alerts := form.alerts ++ ["You must have at least one item"] }, ?_,
      rfl⟩
    simp [Citizen.removeBulkItem, hone]

/-- Witness of C19: the form after loading the page, adding an item, removing item 1 and
adding another item, which holds the items 2 and 3. -/
theorem Citizen.form_keeps_an_item_witness :
    1 ≤ (⟨3, [2, 3], []⟩ : Citizen.Form).items.length ∧
    (∀ id ∈ (⟨3, [2, 3], []⟩ : Citizen.Form).items,
      ∃ form', Citizen.removeBulkItem id ⟨3, [2, 3], []⟩ = .ok form' ∧
        1 ≤ form'.items.length) ∧
    ((⟨3, [2, 3], []⟩ : Citizen.Form).items.length = 1 →
      ∀ id, ∃ form', Citizen.removeBulkItem id ⟨3, [2, 3], []⟩ = .ok form' ∧
        form'.items = (⟨3, [2, 3], []⟩ : Citizen.Form).items) :=
  Citizen.form_keeps_an_item ⟨3, [2, 3], []⟩
    (Citizen.Reachable.add ⟨2, [2], []⟩
      (Citizen.Reachable.remove (Citizen.addBulkItem Citizen.loaded) ⟨2, [2], []⟩ 1
        (Citizen.Reachable.add Citizen.loaded Citizen.Reachable.loaded)
        (by decide) rfl))

/-- C20 (evaluation of the URL of `loadBookings`): with the municipality `Porto` and the
status `ASSIGNED` both selected, the request is the municipality listing, the same as with
no status selected; the other three selections give the base, the municipality and the
status listing. -/
theorem Staff.loadBookings_drops_status_filter :
    Staff.loadBookingsUrl "Porto" "ASSIGNED" = .byMunicipality "Porto" ∧
    Staff.loadBookingsUrl "Porto" "ASSIGNED" = Staff.loadBookingsUrl "Porto" "" ∧
    Staff.loadBookingsUrl "Porto" "ASSIGNED" = Staff.loadBookingsUrl "Porto" "COMPLETED" ∧
    Staff.loadBookingsUrl "" "" = .base ∧
    Staff.loadBookingsUrl "Porto" "" = .byMunicipality "Porto" ∧
    Staff.loadBookingsUrl "" "ASSIGNED" = .byStatus "ASSIGNED" := by
  decide

end Portal
